import Mathlib

/-!
# Router: longest-prefix-match trie, frame synthesis and the dispatch loop

A shallow embedding of `router.c`.

Conventions of the embedding.

* A `uint32_t` / `uint16_t` / `uint8_t` value is a `Nat`; a buffer is a `List Nat` of bytes.
* The host is little-endian: `htons`, `ntohs`, `ntohl` swap bytes, and a multi-byte field is
  loaded and stored low byte first. This is the only host on which `get_mask_length`, which
  counts set bits from the low end, reads a byte-aligned network-order mask as its length.
* A pointer to a `struct trie_node` is a value of `trie_node`: `null` or a node.
* A pointer into the frozen routing table is represented by the entry it points to.
* `malloc` is taken to succeed.
-/

namespace Router

/-! ## Byte order -/

/-- The function `htons` of a little-endian host: swap the two bytes of a 16-bit value. -/
def htons (x : Nat) : Nat := (x % 256) * 256 + (x / 256) % 256

/-- The function `ntohs` of a little-endian host: the same byte swap as `htons`. -/
def ntohs (x : Nat) : Nat := (x % 256) * 256 + (x / 256) % 256

/-- The function `ntohl` of a little-endian host: reverse the four bytes of a 32-bit value. -/
def ntohl (x : Nat) : Nat :=
  (x % 256) * 16777216 + (x / 256 % 256) * 65536 + (x / 65536 % 256) * 256 + (x / 16777216) % 256

/-! ## Routing table and trie -/

/-- The `struct route_table_entry` of `lib.h`; `pfx` is the field `prefix` of the source.
All four fields hold the values as stored, that is in network byte order. -/
structure route_table_entry where
  pfx : Nat
  next_hop : Nat
  mask : Nat
  interface : Nat
  deriving DecidableEq, Repr

/-- Run-time failures of the C program that the embedding makes explicit. -/
inductive Fault where
  | null_dereference
  | empty_queue
  deriving DecidableEq, Repr

/-- The loop of `get_mask_length`: `fuel` iterations remain, `i` is the loop index. -/
def get_mask_length_loop (mask : Nat) : Nat → Nat → Nat → Nat
  | 0, _, length => length
  | fuel + 1, i, length =>
      if (mask >>> i) &&& 1 ≠ 0 then get_mask_length_loop mask fuel (i + 1) (length + 1)
      else length

/-- The function `get_mask_length`: the number of contiguous set bits of `mask`, counted from
bit 0 upwards, at most 32. -/
def get_mask_length (mask : Nat) : Nat := get_mask_length_loop mask 32 0 0

/-- A `struct trie_node *`: `null` is `NULL`, `node c0 c1 r` points to a node with
`children[0] = c0`, `children[1] = c1` and `route = r`. -/
inductive trie_node where
  | null : trie_node
  | node (child0 child1 : trie_node) (route : Option route_table_entry) : trie_node
  deriving DecidableEq, Repr

/-- The function `create_node`: a fresh node without children and without a route. -/
def create_node : trie_node := .node .null .null none

/-- The test `p == NULL ? create_node() : p` made before every descent. -/
def or_create : trie_node → trie_node
  | .null => create_node
  | t => t

/-- The loop of `insert_route` followed by the final store: `steps` iterations remain, `i` is
the loop index and the third argument is `current`, which is never `NULL`. The loop index
reaches 32 when the mask has length 32, and the C shift `prefix >> 32` of a 32-bit operand is
undefined; the machine shift the program is compiled to takes the count modulo 32, so the
bit followed there is bit 0 of the prefix. The shift count is therefore `i % 32`, which is `i`
for every index below 32. -/
def insert_loop (route : route_table_entry) : Nat → Nat → trie_node → trie_node
  | _, _, .null => .null
  | 0, _, .node c0 c1 _ => .node c0 c1 (some route)
  | steps + 1, i, .node c0 c1 r =>
      if (route.pfx >>> (i % 32)) &&& 1 = 0 then
        .node (insert_loop route steps (i + 1) (or_create c0)) c1 r
      else
        .node c0 (insert_loop route steps (i + 1) (or_create c1)) r

/-- The function `insert_route` on the global `root`: the loop runs for `i = 0 .. mask_length`,
that is `mask_length + 1` times. -/
def insert_route (root : trie_node) (route : route_table_entry) : trie_node :=
  insert_loop route (get_mask_length route.mask + 1) 0 (or_create root)

/-- The function `build_trie`: insert the table's entries in order, starting from
`root = NULL`. -/
def build_trie (rtable : List route_table_entry) : trie_node :=
  rtable.foldl insert_route .null

/-- The update of `result` at a visited node. -/
def better (result : Option route_table_entry) (stored : Option route_table_entry) :
    Option route_table_entry :=
  match stored with
  | none => result
  | some r =>
      match result with
      | none => some r
      | some best => if ntohl r.mask > ntohl best.mask then some r else some best

/-- The loop of `get_best_route`: `fuel` iterations remain, `i` is the loop index, the third
argument is `current`. Dereferencing a `NULL` `current` is a fault. -/
def get_best_route_loop (ip_dest : Nat) :
    Nat → Nat → trie_node → Option route_table_entry → Except Fault (Option route_table_entry)
  | 0, _, _, result => .ok result
  | _ + 1, _, .null, _ => .error .null_dereference
  | fuel + 1, i, .node c0 c1 r, result =>
      let child := if (ip_dest >>> i) &&& 1 = 0 then c0 else c1
      match child with
      | .null => .ok (better result r)
      | next => get_best_route_loop ip_dest fuel (i + 1) next (better result r)

/-- The function `get_best_route` on the global `root`. -/
def get_best_route (root : trie_node) (ip_dest : Nat) : Except Fault (Option route_table_entry) :=
  get_best_route_loop ip_dest 32 0 root none

/-- The address `a.b.c.d` as the `uint32_t` a little-endian host loads from its four bytes in
network order. -/
def ipv4 (a b c d : Nat) : Nat := a + 256 * b + 65536 * c + 16777216 * d

/-! ## Buffers -/

/-- Load the byte at offset `off`; a stored value is read modulo 256. -/
def rd8 (buf : List Nat) (off : Nat) : Nat := buf.getD off 0 % 256

/-- Load a `uint16_t` field at offset `off` (low byte first). -/
def rd16 (buf : List Nat) (off : Nat) : Nat := rd8 buf off + 256 * rd8 buf (off + 1)

/-- Load a `uint32_t` field at offset `off` (low byte first). -/
def rd32 (buf : List Nat) (off : Nat) : Nat :=
  rd8 buf off + 256 * rd8 buf (off + 1) + 65536 * rd8 buf (off + 2) + 16777216 * rd8 buf (off + 3)

/-- The `n` bytes at offset `off`, the source operand of a `memcpy` or of `checksum`. -/
def rdN (buf : List Nat) (off n : Nat) : List Nat := (List.range n).map (fun k => rd8 buf (off + k))

/-- Write `bytes` into the object `dst` at offset `off`. The object keeps its size: bytes that
would land past its end are not part of it and are dropped. -/
def store (dst : List Nat) (off : Nat) (bytes : List Nat) : List Nat :=
  (dst.take off ++ bytes ++ dst.drop (off + bytes.length)).take dst.length

/-- Store a `uint8_t` field. -/
def wr8 (dst : List Nat) (off v : Nat) : List Nat := store dst off [v % 256]

/-- Store a `uint16_t` field (low byte first). -/
def wr16 (dst : List Nat) (off v : Nat) : List Nat := store dst off [v % 256, v / 256 % 256]

/-- Store a `uint32_t` field (low byte first). -/
def wr32 (dst : List Nat) (off v : Nat) : List Nat :=
  store dst off [v % 256, v / 256 % 256, v / 65536 % 256, v / 16777216 % 256]

/-- A block returned by `malloc(n)`; every byte of it is written before it is read. -/
def malloc (n : Nat) : List Nat := List.replicate n 0

/-! ## Checksum -/

/-- The sum of the 16-bit words of a buffer, each word taken in network byte order
(`ntohs(*data++)`); an odd last byte is padded with a zero byte. -/
def sum16 : List Nat → Nat
  | [] => 0
  | [a] => (a % 256) * 256
  | a :: b :: rest => (a % 256) * 256 + b % 256 + sum16 rest

/-- The end-around carry of the one's-complement sum: the bits above the low 16 are added
back into the low 16 bits, twice. -/
def fold16 (s : Nat) : Nat :=
  let c := s / 65536 + s % 65536
  (c + c / 65536) % 65536

/-- Modelled from the spec: the function `checksum` declared in `lib.h`, whose body lies
outside `router.c`, "the standard 16-bit one's-complement Internet checksum over an arbitrary
header buffer": the words are added, the carries are folded back into the low 16 bits, and the
complement is returned as a number. The forwarding path of `main` stores it through `htons`. -/
def checksum (data : List Nat) : Nat := 65535 - fold16 (sum16 data)

/-! ## Header layouts

Modelled from the spec: the structures of `protocols.h`, which `router.c` only includes;
the layouts are those of Ethernet II, RFC 791, RFC 792 and RFC 826 named in the spec. A frame starts with the
14-byte Ethernet header; the IPv4 or ARP header follows at offset 14, the ICMP header at 34. -/

/-- Offset of `ether_dhost`. -/
@[simp]
def ETH_DHOST : Nat := 0
/-- Offset of `ether_shost`. -/
@[simp]
def ETH_SHOST : Nat := 6
/-- Offset of `ether_type`. -/
@[simp]
def ETH_TYPE : Nat := 12
/-- Size of `struct ether_header`. -/
@[simp]
def ETH_LEN : Nat := 14
/-- Offset of the IPv4 header's first byte, `version` and `ihl`. -/
@[simp]
def IP_VHL : Nat := 14
/-- Offset of `tos`. -/
@[simp]
def IP_TOS : Nat := 15
/-- Offset of `tot_len`. -/
@[simp]
def IP_TOT_LEN : Nat := 16
/-- Offset of `id`. -/
@[simp]
def IP_ID : Nat := 18
/-- Offset of `frag_off`. -/
@[simp]
def IP_FRAG_OFF : Nat := 20
/-- Offset of `ttl`. -/
@[simp]
def IP_TTL : Nat := 22
/-- Offset of `protocol`. -/
@[simp]
def IP_PROTOCOL : Nat := 23
/-- Offset of `check`. -/
@[simp]
def IP_CHECK : Nat := 24
/-- Offset of `saddr`. -/
@[simp]
def IP_SADDR : Nat := 26
/-- Offset of `daddr`. -/
@[simp]
def IP_DADDR : Nat := 30
/-- Size of `struct iphdr`. -/
@[simp]
def IP_LEN : Nat := 20
/-- Offset of the ICMP header's `type`. -/
@[simp]
def ICMP_TYPE : Nat := 34
/-- Offset of the ICMP header's `code`. -/
@[simp]
def ICMP_CODE : Nat := 35
/-- Offset of the ICMP header's `checksum`. -/
@[simp]
def ICMP_CHECKSUM : Nat := 36
/-- Offset of the ICMP header's `un`. -/
@[simp]
def ICMP_UN : Nat := 38
/-- Size of `struct icmphdr`. -/
@[simp]
def ICMP_LEN : Nat := 8
/-- Offset of the ARP header's `htype`. -/
@[simp]
def ARP_HTYPE : Nat := 14
/-- Offset of `ptype`. -/
@[simp]
def ARP_PTYPE : Nat := 16
/-- Offset of `hlen`. -/
@[simp]
def ARP_HLEN : Nat := 18
/-- Offset of `plen`. -/
@[simp]
def ARP_PLEN : Nat := 19
/-- Offset of `op`. -/
@[simp]
def ARP_OP : Nat := 20
/-- Offset of `sha`. -/
@[simp]
def ARP_SHA : Nat := 22
/-- Offset of `spa`. -/
@[simp]
def ARP_SPA : Nat := 28
/-- Offset of `tha`. -/
@[simp]
def ARP_THA : Nat := 32
/-- Offset of `tpa`. -/
@[simp]
def ARP_TPA : Nat := 38
/-- Size of `struct arp_header`. -/
@[simp]
def ARP_LEN : Nat := 28

/-! ## Collaborators and state -/

/-- The per-interface identity lookups of `lib.h`, taken as parameters:
`get_interface_mac interface` is the link address written by `get_interface_mac(interface, _)`
and `interface_ip interface` is `inet_addr(get_interface_ip(interface))`. -/
structure Links where
  get_interface_mac : Nat → List Nat
  interface_ip : Nat → Nat

/-- The `struct arp_table_entry` of `lib.h`. -/
structure arp_table_entry where
  ip : Nat
  mac : List Nat
  deriving DecidableEq, Repr

/-- A `char *` held in `buf_q`. The only address ever enqueued there is that of the array
`aux_buf`, declared in the body of the receive loop. -/
inductive buf_ptr where
  | aux_buf
  deriving DecidableEq, Repr

/-- A `size_t *` held in `len_q`: the address of the local `aux_len`. -/
inductive len_ptr where
  | aux_len
  deriving DecidableEq, Repr

/-- An `int *` held in `interface_q`: the address of the local `aux_interface`. -/
inductive interface_ptr where
  | aux_interface
  deriving DecidableEq, Repr

/-- The state of `main` that survives an iteration of the receive loop: the ARP table (its
length is `arp_table_len`), the three queues, and the storage of the locals `aux_buf`,
`aux_len`, `aux_interface`. These locals are declared inside the loop body and the queues
keep their addresses, not copies; they occupy one fixed place in the frame of `main`, so
every queued pointer names the same storage. -/
structure RouterState where
  arp_table : List arp_table_entry
  buf_q : List buf_ptr
  len_q : List len_ptr
  interface_q : List interface_ptr
  aux_buf : List Nat
  aux_len : Nat
  aux_interface : Nat
  deriving DecidableEq, Repr

/-- The state before the first frame: `arp_table_len = 0` and three empty queues. -/
def RouterState.initial : RouterState :=
  { arp_table := [], buf_q := [], len_q := [], interface_q := [],
    aux_buf := [], aux_len := 0, aux_interface := 0 }

/-- One call `send_to_link(interface, frame, len)`; `frame` holds the `len` bytes sent. -/
structure Sent where
  interface : Nat
  frame : List Nat
  deriving DecidableEq, Repr

/-- What one iteration of the receive loop leaves behind: the state, the receive buffer `buf`
and the frames handed to `send_to_link`, in order. -/
structure Outcome where
  state : RouterState
  buf : List Nat
  sent : List Sent
  deriving DecidableEq, Repr

/-- Modelled from the spec: `queue_enq` of `queue.h`, a FIFO queue; the element joins the
tail. -/
def queue_enq {α : Type} (q : List α) (x : α) : List α := q ++ [x]

/-- Modelled from the spec: `queue_empty` of `queue.h`. -/
def queue_empty {α : Type} (q : List α) : Bool := q.isEmpty

/-- Modelled from the spec: `queue_deq` of `queue.h`; the element at the front leaves the
queue. Taking from an empty queue is a fault. -/
def queue_deq {α : Type} : List α → Except Fault (α × List α)
  | [] => .error .empty_queue
  | x :: q => .ok (x, q)

/-- The function `get_arp_entry`: the first entry of the table with the given address. -/
def get_arp_entry : List arp_table_entry → Nat → Option arp_table_entry
  | [], _ => none
  | e :: rest, given_ip => if given_ip = e.ip then some e else get_arp_entry rest given_ip

/-! ## Frame synthesis -/

/-- The function `send_icmp_packet`, called with `original_eth_hdr = buf` and
`original_ip_hdr = buf + 14`. The Ethernet header of the frame is copied from the received
one; the interface's link address is then written into the received buffer, not into the
frame. Returns the received buffer and the frame sent. -/
def send_icmp_packet (L : Links) (icmp_hdr : List Nat) (buf : List Nat) (interface : Nat) :
    List Nat × Sent :=
  let frame := malloc (ETH_LEN + IP_LEN + ICMP_LEN)
  let frame := store frame 0 (rdN buf 0 ETH_LEN)
  let buf := store buf ETH_SHOST (rdN (L.get_interface_mac interface) 0 6)
  let frame := wr8 frame IP_VHL (4 * 16 + 5)
  let frame := wr8 frame IP_TOS 0
  let frame := wr16 frame IP_TOT_LEN (htons (IP_LEN + ICMP_LEN))
  let frame := wr16 frame IP_ID 1
  let frame := wr16 frame IP_FRAG_OFF 0
  let frame := wr8 frame IP_TTL 64
  let frame := wr8 frame IP_PROTOCOL 1
  let frame := wr16 frame IP_CHECK 0
  let frame := wr32 frame IP_SADDR (rd32 buf IP_DADDR)
  let frame := wr32 frame IP_DADDR (rd32 buf IP_SADDR)
  let frame := store frame ICMP_TYPE (rdN icmp_hdr 0 ICMP_LEN)
  let frame := wr16 frame IP_CHECK (checksum (rdN frame IP_VHL IP_LEN))
  (buf, { interface := interface, frame := frame })

/-- The function `send_arp_request`. -/
def send_arp_request (L : Links) (target_ip : Nat) (interface : Nat) : Sent :=
  let frame := malloc (ETH_LEN + ARP_LEN)
  let frame := store frame ETH_DHOST (List.replicate 6 255)
  let frame := store frame ETH_SHOST (rdN (L.get_interface_mac interface) 0 6)
  let frame := wr16 frame ETH_TYPE (htons 2054)
  let frame := wr16 frame ARP_HTYPE (htons 1)
  let frame := wr16 frame ARP_PTYPE (htons 2048)
  let frame := wr8 frame ARP_HLEN 6
  let frame := wr8 frame ARP_PLEN 4
  let frame := wr16 frame ARP_OP (htons 1)
  let frame := store frame ARP_SHA (rdN (L.get_interface_mac interface) 0 6)
  let frame := wr32 frame ARP_SPA (L.interface_ip interface)
  let frame := store frame ARP_THA (List.replicate 6 0)
  let frame := wr32 frame ARP_TPA target_ip
  { interface := interface, frame := frame }

/-- The function `send_arp_response`; `dest_mac` is the six bytes the caller points at. -/
def send_arp_response (L : Links) (dest_mac : List Nat) (dest_ip src_ip : Nat)
    (interface : Nat) : Sent :=
  let frame := malloc (ETH_LEN + ARP_LEN)
  let src_mac := rdN (L.get_interface_mac interface) 0 6
  let frame := store frame ETH_DHOST (rdN dest_mac 0 6)
  let frame := store frame ETH_SHOST src_mac
  let frame := wr16 frame ETH_TYPE (htons 2054)
  let frame := wr16 frame ARP_HTYPE (htons 1)
  let frame := wr16 frame ARP_PTYPE (htons 2048)
  let frame := wr8 frame ARP_HLEN 6
  let frame := wr8 frame ARP_PLEN 4
  let frame := wr16 frame ARP_OP (htons 2)
  let frame := store frame ARP_SHA src_mac
  let frame := wr32 frame ARP_SPA src_ip
  let frame := store frame ARP_THA (rdN dest_mac 0 6)
  let frame := wr32 frame ARP_TPA dest_ip
  { interface := interface, frame := frame }

/-- The ICMP header built in `main` for an error of the given type (3 or 11). The block is
`malloc(sizeof(struct icmphdr))`, eight bytes; `memcpy(&icmp_hdr->un.echo, ip_hdr, 8)` starts
at offset 4 of it, so only the first four bytes of the IP header land inside the header. -/
def icmp_error_header (type : Nat) (buf : List Nat) : List Nat :=
  let icmp_hdr := malloc ICMP_LEN
  let icmp_hdr := wr8 icmp_hdr 0 type
  let icmp_hdr := wr8 icmp_hdr 1 0
  let icmp_hdr := wr16 icmp_hdr 2 0
  let icmp_hdr := store icmp_hdr 4 (rdN buf IP_VHL 8)
  wr16 icmp_hdr 2 (checksum (rdN icmp_hdr 0 ICMP_LEN))

/-- The in-place rewrite of an echo request into an echo reply in `main`. -/
def echo_reply (buf : List Nat) : List Nat :=
  let buf := wr8 buf ICMP_TYPE 0
  let buf := wr8 buf ICMP_CODE 0
  let buf := wr16 buf ICMP_CHECKSUM 0
  let buf := wr16 buf ICMP_CHECKSUM (checksum (rdN buf ICMP_TYPE ICMP_LEN))
  let aux := rd32 buf IP_SADDR
  let buf := wr32 buf IP_SADDR (rd32 buf IP_DADDR)
  wr32 buf IP_DADDR aux

/-! ## The receive loop -/

/-- The ARP-reply branch of `main`. -/
def handle_arp_reply (st : RouterState) (buf : List Nat) : Except Fault Outcome :=
  let arp_table :=
    match get_arp_entry st.arp_table (rd32 buf ARP_SPA) with
    | some _ => st.arp_table
    | none => st.arp_table ++ [{ ip := rd32 buf ARP_SPA, mac := rdN buf ARP_SHA 6 }]
  match get_arp_entry arp_table (rd32 buf ARP_SPA) with
  | none => .error .null_dereference
  | some dest_mac =>
      if queue_empty st.buf_q then
        .ok { state := { st with arp_table := arp_table }, buf := buf, sent := [] }
      else
        match queue_deq st.buf_q, queue_deq st.len_q, queue_deq st.interface_q with
        | .ok (.aux_buf, buf_q), .ok (.aux_len, len_q), .ok (.aux_interface, interface_q) =>
            let aux_buf := store st.aux_buf ETH_DHOST (rdN dest_mac.mac 0 6)
            .ok { state := { st with arp_table := arp_table, buf_q := buf_q, len_q := len_q,
                                     interface_q := interface_q, aux_buf := aux_buf },
                  buf := buf,
                  sent := [{ interface := st.aux_interface, frame := aux_buf.take st.aux_len }] }
        | .error f, _, _ => .error f
        | _, .error f, _ => .error f
        | _, _, .error f => .error f

/-- The IPv4 part of the loop body, from the checksum test to the end. -/
def handle_ipv4 (root : trie_node) (L : Links) (st : RouterState) (interface : Nat)
    (buf : List Nat) (len : Nat) : Except Fault Outcome :=
  if checksum (rdN buf IP_VHL IP_LEN) ≠ 0 then
    .ok { state := st, buf := buf, sent := [] }
  else
    let buf :=
      if rd8 buf IP_PROTOCOL = 1 ∧ L.interface_ip interface = rd32 buf IP_DADDR then echo_reply buf
      else buf
    match get_best_route root (rd32 buf IP_DADDR) with
    | .error f => .error f
    | .ok none =>
        let r := send_icmp_packet L (icmp_error_header 3 buf) buf interface
        .ok { state := st, buf := r.1, sent := [r.2] }
    | .ok (some best_route) =>
        if rd8 buf IP_TTL ≤ 1 then
          let r := send_icmp_packet L (icmp_error_header 11 buf) buf interface
          .ok { state := st, buf := r.1, sent := [r.2] }
        else
          let buf := wr8 buf IP_TTL (rd8 buf IP_TTL - 1)
          let buf := wr16 buf IP_CHECK 0
          let buf := wr16 buf IP_CHECK (htons (checksum (rdN buf IP_VHL IP_LEN)))
          match get_arp_entry st.arp_table best_route.next_hop with
          | none =>
              .ok { state := { st with aux_buf := buf.take len ++ st.aux_buf.drop len,
                                       aux_len := len,
                                       aux_interface := best_route.interface,
                                       buf_q := queue_enq st.buf_q .aux_buf,
                                       len_q := queue_enq st.len_q .aux_len,
                                       interface_q := queue_enq st.interface_q .aux_interface },
                    buf := buf,
                    sent := [send_arp_request L best_route.next_hop best_route.interface] }
          | some dest_mac =>
              let buf := store buf ETH_DHOST (rdN dest_mac.mac 0 6)
              let buf := store buf ETH_SHOST (rdN (L.get_interface_mac best_route.interface) 0 6)
              .ok { state := st, buf := buf,
                    sent := [{ interface := best_route.interface, frame := buf.take len }] }

/-- One iteration of the `while (1)` loop of `main`, after `recv_from_any_link` has returned
`interface` and left the frame of `len` bytes in `buf`. -/
def dispatch (root : trie_node) (L : Links) (st : RouterState) (interface : Nat)
    (buf : List Nat) (len : Nat) : Except Fault Outcome :=
  if rd16 buf ETH_TYPE = ntohs 2054 ∧ rd32 buf ARP_TPA = L.interface_ip interface ∧
      rd16 buf ARP_OP = ntohs 1 then
    .ok { state := st, buf := buf,
          sent := [send_arp_response L (rdN buf ARP_SHA 6) (rd32 buf ARP_SPA) (rd32 buf ARP_TPA)
                    interface] }
  else if rd16 buf ETH_TYPE = ntohs 2054 ∧ rd32 buf ARP_TPA = L.interface_ip interface ∧
      rd16 buf ARP_OP = ntohs 2 then
    handle_arp_reply st buf
  else if rd16 buf ETH_TYPE ≠ ntohs 2048 then
    .ok { state := st, buf := buf, sent := [] }
  else
    handle_ipv4 root L st interface buf len

/-- One return of `recv_from_any_link`: the interface, the contents of `buf` and `len`. -/
structure Received where
  interface : Nat
  buf : List Nat
  len : Nat
  deriving DecidableEq, Repr

/-- The receive loop of `main` run over a finite sequence of receptions: the final state and
every frame handed to `send_to_link`, in order. -/
def receive_loop (root : trie_node) (L : Links) :
    RouterState → List Received → Except Fault (RouterState × List Sent)
  | st, [] => .ok (st, [])
  | st, rx :: rest =>
      match dispatch root L st rx.interface rx.buf rx.len with
      | .error f => .error f
      | .ok o =>
          match receive_loop root L o.state rest with
          | .error f => .error f
          | .ok (st', sent) => .ok (st', o.sent ++ sent)

/-! ## A small network used for concrete runs

Interface `i` of the router has address `10.0.i.1` and link address `02:00:00:00:00:(i+1)`.
The neighbour `10.0.0.2` has link address `02:00:00:00:00:aa`, the neighbour `10.0.1.2` has
`02:00:00:00:00:bb`. -/

/-- The interfaces of the example router. -/
def example_links : Links :=
  { get_interface_mac := fun i => [2, 0, 0, 0, 0, i + 1]
    interface_ip := fun i => ipv4 10 0 i 1 }

/-- The route `10.0.0.0/8` via `10.0.0.2` on interface 0. -/
def route_A : route_table_entry :=
  { pfx := ipv4 10 0 0 0, next_hop := ipv4 10 0 0 2, mask := ipv4 255 0 0 0, interface := 0 }

/-- The route `10.0.1.0/24` via `10.0.1.2` on interface 1. -/
def route_B : route_table_entry :=
  { pfx := ipv4 10 0 1 0, next_hop := ipv4 10 0 1 2, mask := ipv4 255 255 255 0, interface := 1 }

/-- The route `10.128.0.0/9` via `10.0.1.2` on interface 1; its mask `255.128.0.0` is a prefix
mask that does not end on a byte boundary. -/
def route_C : route_table_entry :=
  { pfx := ipv4 10 128 0 0, next_hop := ipv4 10 0 1 2, mask := ipv4 255 128 0 0, interface := 1 }

/-- The routing table of the example router. -/
def example_rtable : List route_table_entry := [route_A, route_B]

/-- A state whose ARP table already holds both neighbours. -/
def state_resolved : RouterState :=
  { RouterState.initial with
    arp_table := [{ ip := ipv4 10 0 0 2, mac := [2, 0, 0, 0, 0, 170] },
                  { ip := ipv4 10 0 1 2, mac := [2, 0, 0, 0, 0, 187] }] }

/-- An ICMP echo request from `10.0.0.2` to the router's own `10.0.0.1`, TTL 1. -/
def frame_echo_ttl1 : List Nat :=
  [2, 0, 0, 0, 0, 1, 2, 0, 0, 0, 0, 170, 8, 0,
   69, 0, 0, 28, 171, 205, 0, 0, 1, 1, 250, 17, 10, 0, 0, 2, 10, 0, 0, 1,
   8, 0, 247, 255, 0, 0, 0, 0]

/-- An ICMP echo request from `10.0.0.2` to the router's own `10.0.0.1`, TTL 64. -/
def frame_echo : List Nat :=
  [2, 0, 0, 0, 0, 1, 2, 0, 0, 0, 0, 170, 8, 0,
   69, 0, 0, 28, 171, 205, 0, 0, 64, 1, 187, 17, 10, 0, 0, 2, 10, 0, 0, 1,
   8, 0, 247, 255, 0, 0, 0, 0]

/-- A UDP packet from `10.0.0.2` to `192.168.1.1`, for which the table has no route. -/
def frame_no_route : List Nat :=
  [2, 0, 0, 0, 0, 1, 2, 0, 0, 0, 0, 170, 8, 0,
   69, 0, 0, 28, 171, 205, 0, 0, 64, 17, 3, 89, 10, 0, 0, 2, 192, 168, 1, 1,
   1, 2, 3, 4, 5, 6, 7, 8]

/-- A UDP packet of 42 bytes from `10.0.0.2` to `10.0.1.4`, TTL 64. -/
def frame_first : List Nat :=
  [2, 0, 0, 0, 0, 1, 2, 0, 0, 0, 0, 170, 8, 0,
   69, 0, 0, 28, 171, 205, 0, 0, 64, 17, 185, 254, 10, 0, 0, 2, 10, 0, 1, 4,
   1, 1, 1, 1, 1, 1, 1, 1]

/-- A UDP packet of 44 bytes from `10.0.0.2` to `10.0.1.6`, TTL 64. -/
def frame_second : List Nat :=
  [2, 0, 0, 0, 0, 1, 2, 0, 0, 0, 0, 170, 8, 0,
   69, 0, 0, 30, 171, 205, 0, 0, 64, 17, 185, 250, 10, 0, 0, 2, 10, 0, 1, 6,
   2, 2, 2, 2, 2, 2, 2, 2, 2, 2]

/-- An ARP request from `10.0.0.2` for the router's `10.0.0.1`. -/
def frame_arp_request : List Nat :=
  [255, 255, 255, 255, 255, 255, 2, 0, 0, 0, 0, 170, 8, 6,
   0, 1, 8, 0, 6, 4, 0, 1, 2, 0, 0, 0, 0, 170, 10, 0, 0, 2, 0, 0, 0, 0, 0, 0, 10, 0, 0, 1]

/-- An ARP reply from `10.0.1.2` to the router's `10.0.1.1`. -/
def frame_arp_reply : List Nat :=
  [2, 0, 0, 0, 0, 2, 2, 0, 0, 0, 0, 187, 8, 6,
   0, 1, 8, 0, 6, 4, 0, 2, 2, 0, 0, 0, 0, 187, 10, 0, 1, 2, 2, 0, 0, 0, 0, 2, 10, 0, 1, 1]

/-- The ARP request the example router sends for `10.0.1.2` on interface 1. -/
def frame_arp_query : List Nat :=
  [255, 255, 255, 255, 255, 255, 2, 0, 0, 0, 0, 2, 8, 6,
   0, 1, 8, 0, 6, 4, 0, 1, 2, 0, 0, 0, 0, 2, 10, 0, 1, 1, 0, 0, 0, 0, 0, 0, 10, 0, 1, 2]

/-- The packet `frame_second` with TTL 63, its checksum recomputed and the link destination
`02:00:00:00:00:bb`. -/
def frame_second_patched : List Nat :=
  [2, 0, 0, 0, 0, 187, 2, 0, 0, 0, 0, 170, 8, 0,
   69, 0, 0, 30, 171, 205, 0, 0, 63, 17, 186, 250, 10, 0, 0, 2, 10, 0, 1, 6,
   2, 2, 2, 2, 2, 2, 2, 2, 2, 2]

/-! ## Paths in the trie -/

/-- The pointer reached from `t` along `path`, one child link per bit (`false` is
`children[0]`, `true` is `children[1]`); `null` as soon as a link is missing. -/
def walk : trie_node → List Bool → trie_node
  | t, [] => t
  | .null, _ :: _ => .null
  | .node c0 c1 _, b :: rest => if b then walk c1 rest else walk c0 rest

/-- The field `route` of the node a pointer names; nothing for `NULL`. -/
def stored : trie_node → Option route_table_entry
  | .null => none
  | .node _ _ r => r

/-- The bits `i, i + 1, ..., i + n - 1` of the number `x`, least-significant first; a bit
above the highest set bit of `x` is 0. -/
def bits_from (x : Nat) : Nat → Nat → List Bool
  | _, 0 => []
  | i, n + 1 => decide ((x >>> i) &&& 1 ≠ 0) :: bits_from x (i + 1) n

/-- The path in the words of the spec: bits `0, 1, ..., L` of the prefix of `route`,
least-significant first, `L = get_mask_length(route.mask)`, that is `L + 1` steps. -/
def insert_path (route : route_table_entry) : List Bool :=
  bits_from route.pfx 0 (get_mask_length route.mask + 1)

/-- The child indices the loop of `insert_route` computes at the loop indices
`i, i + 1, ..., i + n - 1`: `(x >> k) & 1` with the shift count taken modulo 32, as in
`insert_loop`. -/
def loop_bits_from (x : Nat) : Nat → Nat → List Bool
  | _, 0 => []
  | i, n + 1 => decide ((x >>> (i % 32)) &&& 1 ≠ 0) :: loop_bits_from x (i + 1) n

/-- The path `insert_route` follows from the root for `route`: the child indices of the loop
indices `0, 1, ..., get_mask_length(route.mask)`. -/
def followed_path (route : route_table_entry) : List Bool :=
  loop_bits_from route.pfx 0 (get_mask_length route.mask + 1)

/-! ## Reference lookup -/

/-- The routes stored on the nodes a lookup of `a` visits, shallowest first: starting at a
node of depth `i`, at most `n` nodes are visited, following bit `i`, `i + 1`, ... of `a`, and
the walk stops at the first missing child. -/
def visited_routes (a : Nat) : Nat → Nat → trie_node → List route_table_entry
  | 0, _, _ => []
  | _ + 1, _, .null => []
  | n + 1, i, .node c0 c1 r =>
      r.toList ++ visited_routes a n (i + 1) (if (a >>> i) &&& 1 = 0 then c0 else c1)

/-- Among the routes of a list, one whose mask is maximal as a host-order number, the first
such in the list; nothing for the empty list. -/
def shallowest_max : List route_table_entry → Option route_table_entry
  | [] => none
  | r :: rest =>
      match shallowest_max rest with
      | none => some r
      | some b => if ntohl r.mask < ntohl b.mask then some b else some r

/-- The reference lookup in the words of the spec: walk from the root along the bits of `a`,
least-significant first, visit the nodes at depths 0..31 up to the first missing child, and
return the route with the largest host-order mask stored on a visited node, the shallowest
on ties, or nothing. -/
def reference_lookup (root : trie_node) (a : Nat) : Option route_table_entry :=
  shallowest_max (visited_routes a 32 0 root)

/-- Every route stored in the subtree `t`, whose root node lies at depth `d`, is stored at
depth `get_mask_length(mask) + 1`. -/
def stored_at_mask_depth : Nat → trie_node → Prop
  | _, .null => True
  | d, .node c0 c1 r =>
      (∀ x, r = some x → get_mask_length x.mask + 1 = d) ∧
      stored_at_mask_depth (d + 1) c0 ∧ stored_at_mask_depth (d + 1) c1

/-- The packet as `main` routes it: an ICMP packet addressed to the receiving interface has
been rewritten in place by the echo branch, any other packet is as received. -/
def routed_packet (L : Links) (interface : Nat) (buf : List Nat) : List Nat :=
  if rd8 buf IP_PROTOCOL = 1 ∧ L.interface_ip interface = rd32 buf IP_DADDR then echo_reply buf
  else buf

/-! ## Masks by length -/

/-- The function `htonl` of a little-endian host: the same byte reversal as `ntohl`. -/
def htonl (x : Nat) : Nat :=
  (x % 256) * 16777216 + (x / 256 % 256) * 65536 + (x / 65536 % 256) * 256 + (x / 16777216) % 256

/-- The mask of length `L` as a number: `L` leading 1-bits followed by `32 - L` 0-bits. -/
def mask_of_length (L : Nat) : Nat := 4294967296 - 2 ^ (32 - L)

/-- The mask of length `L` as it is stored in `route_table_entry.mask`, that is in network
byte order. -/
def stored_mask (L : Nat) : Nat := htonl (mask_of_length L)

/-! ## More frames of the example network -/

/-- The host route `10.0.1.5/32` via `10.0.1.2` on interface 1. -/
def route_H : route_table_entry :=
  { pfx := ipv4 10 0 1 5, next_hop := ipv4 10 0 1 2, mask := ipv4 255 255 255 255,
    interface := 1 }

/-- The host route `11.0.1.5/32` via `10.0.1.2` on interface 1; bit 0 of its stored prefix
is 1. -/
def route_K : route_table_entry :=
  { pfx := ipv4 11 0 1 5, next_hop := ipv4 10 0 1 2, mask := ipv4 255 255 255 255,
    interface := 1 }

/-- The packet `frame_first` as it is copied to `aux_buf`: TTL 63, checksum recomputed, link
addresses as received. -/
def frame_first_queued : List Nat :=
  [2, 0, 0, 0, 0, 1, 2, 0, 0, 0, 0, 170, 8, 0,
   69, 0, 0, 28, 171, 205, 0, 0, 63, 17, 186, 254, 10, 0, 0, 2, 10, 0, 1, 4,
   1, 1, 1, 1, 1, 1, 1, 1]

/-- The packet `frame_second` as it is copied to `aux_buf`: TTL 63, checksum recomputed, link
addresses as received. -/
def frame_second_queued : List Nat :=
  [2, 0, 0, 0, 0, 1, 2, 0, 0, 0, 0, 170, 8, 0,
   69, 0, 0, 30, 171, 205, 0, 0, 63, 17, 186, 250, 10, 0, 0, 2, 10, 0, 1, 6,
   2, 2, 2, 2, 2, 2, 2, 2, 2, 2]

/-- The state of the example router after `frame_first` has been queued from the initial
state: one pointer in each queue, and the storage they name holds `frame_first_queued`. -/
def state_one_pending : RouterState :=
  { arp_table := [], buf_q := [.aux_buf], len_q := [.aux_len], interface_q := [.aux_interface],
    aux_buf := frame_first_queued, aux_len := 42, aux_interface := 1 }

/-- The echo request `frame_echo` after the echo rewrite of `main` and the TTL and checksum
update, as it is copied to `aux_buf` while `10.0.0.2` is unresolved. -/
def frame_echo_queued : List Nat :=
  [2, 0, 0, 0, 0, 1, 2, 0, 0, 0, 0, 170, 8, 0,
   69, 0, 0, 28, 171, 205, 0, 0, 63, 1, 188, 17, 10, 0, 0, 1, 10, 0, 0, 2,
   0, 0, 255, 255, 0, 0, 0, 0]

/-- The ARP request the example router sends for `10.0.0.2` on interface 0. -/
def frame_arp_query_A : List Nat :=
  [255, 255, 255, 255, 255, 255, 2, 0, 0, 0, 0, 1, 8, 6,
   0, 1, 8, 0, 6, 4, 0, 1, 2, 0, 0, 0, 0, 1, 10, 0, 0, 1, 0, 0, 0, 0, 0, 0, 10, 0, 0, 2]

/-- An ARP reply to the router's `10.0.1.1` from the neighbour `10.0.1.(100 + k)`, whose link
address is `02:00:00:00:01:k`. -/
def frame_arp_reply_from (k : Nat) : List Nat :=
  [2, 0, 0, 0, 0, 2, 2, 0, 0, 0, 1, k, 8, 6,
   0, 1, 8, 0, 6, 4, 0, 2, 2, 0, 0, 0, 1, k, 10, 0, 1, 100 + k, 2, 0, 0, 0, 0, 2, 10, 0, 1, 1]

/-- ARP replies from `n` different neighbours, each received on interface 1. -/
def replies_from_neighbours (n : Nat) : List Received :=
  (List.range n).map (fun k => { interface := 1, buf := frame_arp_reply_from k, len := 42 })

/-- The packet `frame_first` as replayed from the queue: TTL 63, checksum recomputed, link
destination `02:00:00:00:00:bb`, link source still the sender's `02:00:00:00:00:aa`. -/
def frame_first_replayed : List Nat :=
  [2, 0, 0, 0, 0, 187, 2, 0, 0, 0, 0, 170, 8, 0,
   69, 0, 0, 28, 171, 205, 0, 0, 63, 17, 186, 254, 10, 0, 0, 2, 10, 0, 1, 4,
   1, 1, 1, 1, 1, 1, 1, 1]

/-- The packet `frame_first` as forwarded directly: as `frame_first_replayed`, but the link
source is that of interface 1, `02:00:00:00:00:02`. -/
def frame_first_forwarded : List Nat :=
  [2, 0, 0, 0, 0, 187, 2, 0, 0, 0, 0, 2, 8, 0,
   69, 0, 0, 28, 171, 205, 0, 0, 63, 17, 186, 254, 10, 0, 0, 2, 10, 0, 1, 4,
   1, 1, 1, 1, 1, 1, 1, 1]

/-! # Theorems -/

/-! ## Buffers and checksum -/

@[simp]
theorem length_store (dst : List Nat) (off : Nat) (bytes : List Nat) :
    (store dst off bytes).length = dst.length := by
  unfold store
  simp only [List.length_take, List.length_append, List.length_drop]
  omega

theorem getD_store (dst : List Nat) (off : Nat) (bytes : List Nat) (i : Nat) :
    (store dst off bytes).getD i 0 =
      if off ≤ i ∧ i < off + bytes.length ∧ i < dst.length then bytes.getD (i - off) 0
      else dst.getD i 0 := by
  unfold store
  simp only [List.getD_eq_getElem?_getD]
  by_cases hi : i < dst.length
  · rw [List.getElem?_take_of_lt hi]
    by_cases h1 : i < off
    · rw [List.append_assoc, List.getElem?_append_left (by simp; omega)]
      rw [List.getElem?_take_of_lt h1]
      rw [if_neg (by omega)]
    · by_cases h2 : i < off + bytes.length
      · rw [List.append_assoc, List.getElem?_append_right (by simp; omega)]
        rw [List.getElem?_append_left (by simp; omega)]
        rw [if_pos (by omega)]
        congr 2
        simp; omega
      · rw [List.getElem?_append_right (by simp; omega)]
        rw [if_neg (by omega)]
        rw [List.getElem?_drop]
        congr 2
        simp; omega
  · rw [if_neg (by omega)]
    rw [List.getElem?_eq_none (by simp; omega), List.getElem?_eq_none (by omega)]

@[simp]
theorem length_malloc (n : Nat) : (malloc n).length = n := by simp [malloc]

theorem getD_malloc (n i : Nat) : (malloc n).getD i 0 = 0 := by
  simp only [malloc, List.getD_eq_getElem?_getD]
  by_cases h : i < n
  · simp [List.getElem?_replicate, h]
  · simp [List.getElem?_replicate, h]

@[simp]
theorem length_rdN (buf : List Nat) (off n : Nat) : (rdN buf off n).length = n := by
  simp [rdN]

theorem getD_rdN (buf : List Nat) (off n k : Nat) :
    (rdN buf off n).getD k 0 = if k < n then rd8 buf (off + k) else 0 := by
  simp only [rdN, List.getD_eq_getElem?_getD]
  by_cases h : k < n
  · simp [h]
  · rw [List.getElem?_eq_none (by simp; omega)]
    simp [h]

theorem rd8_lt (buf : List Nat) (i : Nat) : rd8 buf i < 256 := by
  unfold rd8; omega

theorem rd8_mod (buf : List Nat) (i : Nat) : rd8 buf i % 256 = rd8 buf i := by
  unfold rd8; omega

theorem rdN_six (buf : List Nat) (off : Nat) :
    rdN buf off 6 = [rd8 buf off, rd8 buf (off + 1), rd8 buf (off + 2), rd8 buf (off + 3),
      rd8 buf (off + 4), rd8 buf (off + 5)] := rfl

theorem rd8_store (dst : List Nat) (off : Nat) (bytes : List Nat) (i : Nat) :
    rd8 (store dst off bytes) i =
      if off ≤ i ∧ i < off + bytes.length ∧ i < dst.length then bytes.getD (i - off) 0 % 256
      else rd8 dst i := by
  unfold rd8
  rw [getD_store]
  split <;> rfl

theorem rd8_malloc (n i : Nat) : rd8 (malloc n) i = 0 := by
  unfold rd8
  rw [getD_malloc]

theorem rd8_cons_zero (a : Nat) (l : List Nat) : rd8 (a :: l) 0 = a % 256 := rfl

theorem rd8_cons_succ (a : Nat) (l : List Nat) (n : Nat) : rd8 (a :: l) (n + 1) = rd8 l n := rfl

theorem rd8_nil (n : Nat) : rd8 [] n = 0 := rfl

theorem getD_take (l : List Nat) (n i : Nat) :
    (l.take n).getD i 0 = if i < n then l.getD i 0 else 0 := by
  simp only [List.getD_eq_getElem?_getD]
  by_cases h : i < n
  · rw [List.getElem?_take_of_lt h, if_pos h]
  · rw [if_neg h, List.getElem?_eq_none (by simp; omega)]
    rfl

theorem rd8_take (l : List Nat) (n i : Nat) :
    rd8 (l.take n) i = if i < n then rd8 l i else 0 := by
  unfold rd8
  rw [getD_take]
  split <;> rfl

theorem rdN_twenty (buf : List Nat) (off : Nat) :
    rdN buf off 20 = [rd8 buf off, rd8 buf (off + 1), rd8 buf (off + 2), rd8 buf (off + 3),
      rd8 buf (off + 4), rd8 buf (off + 5), rd8 buf (off + 6), rd8 buf (off + 7),
      rd8 buf (off + 8), rd8 buf (off + 9), rd8 buf (off + 10), rd8 buf (off + 11),
      rd8 buf (off + 12), rd8 buf (off + 13), rd8 buf (off + 14), rd8 buf (off + 15),
      rd8 buf (off + 16), rd8 buf (off + 17), rd8 buf (off + 18), rd8 buf (off + 19)] := rfl

theorem fold16_spec (s : Nat) (h : s < 4294967296) :
    s = fold16 s + 65535 * (s / 65536 + (s / 65536 + s % 65536) / 65536) ∧ fold16 s ≤ 65535 ∧
      (0 < s → 0 < fold16 s) := by
  unfold fold16
  simp only
  have hb : (s / 65536 + s % 65536) / 65536 = 0 ∨ (s / 65536 + s % 65536) / 65536 = 1 := by
    omega
  rcases hb with hb | hb
  · rw [hb]; omega
  · rw [hb]; omega

theorem fold16_fix (s : Nat) (h : s < 4294900000) :
    fold16 (s + (65535 - fold16 s)) = 65535 := by
  obtain ⟨h1, h2, h3⟩ := fold16_spec s (by omega)
  obtain ⟨k1, k2, k3⟩ := fold16_spec (s + (65535 - fold16 s)) (by omega)
  have k4 := k3 (by omega)
  generalize fold16 (s + (65535 - fold16 s)) = f' at *
  generalize fold16 s = f at *
  generalize (s / 65536 + (s / 65536 + s % 65536) / 65536) = m at *
  generalize ((s + (65535 - f)) / 65536 +
    ((s + (65535 - f)) / 65536 + (s + (65535 - f)) % 65536) / 65536) = m' at *
  omega

theorem htons_bytes (c : Nat) (hc : c ≤ 65535) :
    htons c % 256 * 256 + htons c / 256 % 256 = c := by
  unfold htons
  have h1 : (c % 256 * 256 + c / 256 % 256) % 256 = c / 256 := by omega
  have h2 : (c % 256 * 256 + c / 256 % 256) / 256 = c % 256 := by omega
  rw [h1, h2]
  omega

/-- Filling the check field of a 20-byte header with the checksum of the header taken with a
zero check field, high byte first, makes the header verify. -/
theorem checksum_filled (b0 b1 b2 b3 b4 b5 b6 b7 b8 b9 b12 b13 b14 b15 b16 b17 b18 b19 : Nat) :
    checksum [b0, b1, b2, b3, b4, b5, b6, b7, b8, b9,
      htons (checksum [b0, b1, b2, b3, b4, b5, b6, b7, b8, b9, 0, 0,
        b12, b13, b14, b15, b16, b17, b18, b19]) % 256,
      htons (checksum [b0, b1, b2, b3, b4, b5, b6, b7, b8, b9, 0, 0,
        b12, b13, b14, b15, b16, b17, b18, b19]) / 256 % 256,
      b12, b13, b14, b15, b16, b17, b18, b19] = 0 := by
  have hs : sum16 [b0, b1, b2, b3, b4, b5, b6, b7, b8, b9,
      htons (checksum [b0, b1, b2, b3, b4, b5, b6, b7, b8, b9, 0, 0,
        b12, b13, b14, b15, b16, b17, b18, b19]) % 256,
      htons (checksum [b0, b1, b2, b3, b4, b5, b6, b7, b8, b9, 0, 0,
        b12, b13, b14, b15, b16, b17, b18, b19]) / 256 % 256,
      b12, b13, b14, b15, b16, b17, b18, b19]
      = sum16 [b0, b1, b2, b3, b4, b5, b6, b7, b8, b9, 0, 0,
        b12, b13, b14, b15, b16, b17, b18, b19] +
        (65535 - fold16 (sum16 [b0, b1, b2, b3, b4, b5, b6, b7, b8, b9, 0, 0,
        b12, b13, b14, b15, b16, b17, b18, b19])) := by
    have hw := htons_bytes (checksum [b0, b1, b2, b3, b4, b5, b6, b7, b8, b9, 0, 0,
        b12, b13, b14, b15, b16, b17, b18, b19]) (by unfold checksum; omega)
    have hc : checksum [b0, b1, b2, b3, b4, b5, b6, b7, b8, b9, 0, 0,
        b12, b13, b14, b15, b16, b17, b18, b19] = 65535 - fold16 (sum16 [b0, b1, b2, b3, b4, b5,
        b6, b7, b8, b9, 0, 0, b12, b13, b14, b15, b16, b17, b18, b19]) := rfl
    rw [← hc]
    generalize checksum _ = c at hw ⊢
    generalize htons c = x at hw ⊢
    simp only [sum16]
    omega
  have hb : sum16 [b0, b1, b2, b3, b4, b5, b6, b7, b8, b9, 0, 0,
        b12, b13, b14, b15, b16, b17, b18, b19] < 4294900000 := by
    simp only [sum16]
    omega
  show 65535 - fold16 _ = 0
  rw [hs, fold16_fix _ hb]

theorem getElem_rdN (buf : List Nat) (off n k : Nat) (h : k < (rdN buf off n).length) :
    (rdN buf off n)[k] = rd8 buf (off + k) := by
  simp [rdN]

/-- The IP header and the Ethernet header of every frame built by `send_icmp_packet`, and
where its ICMP header comes from. -/
theorem send_icmp_packet_frame (L : Links) (icmp_hdr buf : List Nat) (interface : Nat) :
    (send_icmp_packet L icmp_hdr buf interface).2.interface = interface ∧
    (send_icmp_packet L icmp_hdr buf interface).2.frame.length = 42 ∧
    rd32 (send_icmp_packet L icmp_hdr buf interface).2.frame IP_SADDR = rd32 buf IP_DADDR ∧
    rd32 (send_icmp_packet L icmp_hdr buf interface).2.frame IP_DADDR = rd32 buf IP_SADDR ∧
    rd8 (send_icmp_packet L icmp_hdr buf interface).2.frame IP_PROTOCOL = 1 ∧
    rd8 (send_icmp_packet L icmp_hdr buf interface).2.frame IP_TTL = 64 ∧
    rd8 (send_icmp_packet L icmp_hdr buf interface).2.frame IP_VHL / 16 = 4 ∧
    rd8 (send_icmp_packet L icmp_hdr buf interface).2.frame IP_VHL % 16 = 5 ∧
    ntohs (rd16 (send_icmp_packet L icmp_hdr buf interface).2.frame IP_TOT_LEN) = 28 ∧
    rdN (send_icmp_packet L icmp_hdr buf interface).2.frame ETH_DHOST 6 = rdN buf ETH_DHOST 6 ∧
    rdN (send_icmp_packet L icmp_hdr buf interface).2.frame ETH_SHOST 6 = rdN buf ETH_SHOST 6 ∧
    rd8 (send_icmp_packet L icmp_hdr buf interface).2.frame ICMP_TYPE = rd8 icmp_hdr 0 ∧
    rd8 (send_icmp_packet L icmp_hdr buf interface).2.frame ICMP_CODE = rd8 icmp_hdr 1 ∧
    rdN (send_icmp_packet L icmp_hdr buf interface).2.frame ICMP_UN 4 = rdN icmp_hdr 4 4 := by
  have h4 : ∀ (b : List Nat) (o : Nat),
      rdN b o 4 = [rd8 b o, rd8 b (o + 1), rd8 b (o + 2), rd8 b (o + 3)] := fun _ _ => rfl
  simp [send_icmp_packet, wr8, wr16, wr32, rd16, rd32, rd8_store, rd8_malloc, rd8_mod, htons,
    ntohs, rdN_six, h4, getElem_rdN]
  simp only [rd8]
  omega

/-- The header built by `icmp_error_header`: eight bytes, the type given, code 0, and in
its last four bytes the first four bytes of the offending IP header. -/
theorem icmp_error_header_fields (type : Nat) (buf : List Nat) :
    (icmp_error_header type buf).length = 8 ∧
    rd8 (icmp_error_header type buf) 0 = type % 256 ∧
    rd8 (icmp_error_header type buf) 1 = 0 ∧
    rdN (icmp_error_header type buf) 4 4 = rdN buf IP_VHL 4 := by
  have h4 : ∀ (b : List Nat) (o : Nat),
      rdN b o 4 = [rd8 b o, rd8 b (o + 1), rd8 b (o + 2), rd8 b (o + 3)] := fun _ _ => rfl
  simp [icmp_error_header, wr8, wr16, rd8_store, rd8_malloc, rd8_mod, h4, getElem_rdN]

theorem ipv4_frame_not_arp (buf : List Nat) (h : rd16 buf ETH_TYPE = ntohs 2048) :
    ¬ rd16 buf ETH_TYPE = ntohs 2054 := by
  rw [h]; decide

/-! ## The trie -/

/-- C1: on the spec's own example, routes `10.0.0.0/8 → A` and `10.0.1.0/24 → B` inserted
into an empty trie, `get_best_route(10.0.1.5)` returns A although B matches the address and
has the larger mask: B is stored one bit below its mask length, on the branch where bit 24 of
the prefix is 0, and bit 24 of `10.0.1.5` is 1. The other two lookups of the example come out
as the spec says. -/
theorem get_best_route_spec_example :
    ipv4 10 0 1 5 &&& route_B.mask = route_B.pfx ∧
    ipv4 10 0 1 5 &&& route_A.mask = route_A.pfx ∧
    ntohl route_A.mask < ntohl route_B.mask ∧
    get_best_route (build_trie [route_A, route_B]) (ipv4 10 0 1 5) = .ok (some route_A) ∧
    get_best_route (build_trie [route_A, route_B]) (ipv4 10 0 2 5) = .ok (some route_A) ∧
    get_best_route (build_trie [route_A, route_B]) (ipv4 192 168 1 1) = .ok none :=
  ⟨by decide, by decide, by decide, rfl, rfl, rfl⟩

/-- C2: with the single route `10.128.0.0/9` inserted, whose mask `255.128.0.0` is a prefix
mask and whose prefix has no bit outside the mask, `get_best_route(10.0.0.0)` returns that
route although `10.0.0.0 & mask` is not the prefix: `get_mask_length` counts only the eight
low bits of the stored mask. -/
theorem get_best_route_unsound_on_slash9 :
    ntohl route_C.mask = 0xFF800000 ∧
    route_C.pfx &&& (0xFFFFFFFF ^^^ route_C.mask) = 0 ∧
    get_mask_length route_C.mask = 8 ∧
    get_best_route (build_trie [route_C]) (ipv4 10 0 0 0) = .ok (some route_C) ∧
    ipv4 10 0 0 0 &&& route_C.mask ≠ route_C.pfx :=
  ⟨by decide, by decide, by decide, rfl, by decide⟩

/-- C3: after `build_trie` over an empty routing table `root` is still `NULL`, and
`get_best_route` dereferences it in its first iteration, for every destination address. -/
theorem get_best_route_empty_table_faults (ip_dest : Nat) :
    build_trie [] = .null ∧ get_best_route (build_trie []) ip_dest = .error .null_dereference :=
  ⟨rfl, rfl⟩

/-! ## IPv4 handling -/

/-- C4: an echo request from `10.0.0.2` to the router's own address `10.0.0.1` with TTL 1 has a
valid checksum and a route for its destination, and the next hop is in the ARP table. The
echo branch swaps the two addresses before the lookup, so the time-exceeded message (type 11,
code 0) that is sent has IP destination `10.0.0.1`, the router itself, and IP source
`10.0.0.2`, the original sender. -/
theorem ttl_exceeded_for_echo_goes_to_router :
    checksum (rdN frame_echo_ttl1 IP_VHL IP_LEN) = 0 ∧
    rd8 frame_echo_ttl1 IP_TTL = 1 ∧
    get_best_route (build_trie example_rtable) (rd32 frame_echo_ttl1 IP_DADDR)
      = .ok (some route_A) ∧
    rd32 frame_echo_ttl1 IP_SADDR = ipv4 10 0 0 2 ∧
    ∃ s, dispatch (build_trie example_rtable) example_links state_resolved 0 frame_echo_ttl1 42
        = .ok { state := state_resolved,
                buf := [2, 0, 0, 0, 0, 1, 2, 0, 0, 0, 0, 1, 8, 0,
                        69, 0, 0, 28, 171, 205, 0, 0, 1, 1, 250, 17, 10, 0, 0, 1, 10, 0, 0, 2,
                        0, 0, 255, 255, 0, 0, 0, 0],
                sent := [s] } ∧
      s.interface = 0 ∧
      rd8 s.frame ICMP_TYPE = 11 ∧ rd8 s.frame ICMP_CODE = 0 ∧
      rd32 s.frame IP_DADDR = example_links.interface_ip 0 ∧
      rd32 s.frame IP_SADDR = ipv4 10 0 0 2 :=
  ⟨by decide, by decide, rfl, by decide,
    { interface := 0,
      frame := [2, 0, 0, 0, 0, 1, 2, 0, 0, 0, 0, 170, 8, 0,
                69, 0, 0, 28, 1, 0, 0, 0, 64, 1, 223, 101, 10, 0, 0, 2, 10, 0, 0, 1,
                11, 0, 227, 175, 69, 0, 0, 28] },
    by rfl, rfl, by decide, by decide, by decide, by decide⟩

/-- What the TTL branch does with a frame that is not an echo request to the router: one
time-exceeded frame (type 11, code 0) on the arrival interface, addressed to the source of
the received packet; the state is unchanged, nothing is forwarded or queued. -/
theorem ttl_exceeded_sent (root : trie_node) (L : Links) (st : RouterState)
    (interface : Nat) (buf : List Nat) (len : Nat) (r : route_table_entry)
    (htype : rd16 buf ETH_TYPE = ntohs 2048)
    (hck : checksum (rdN buf IP_VHL IP_LEN) = 0)
    (hecho : ¬ (rd8 buf IP_PROTOCOL = 1 ∧ L.interface_ip interface = rd32 buf IP_DADDR))
    (hroute : get_best_route root (rd32 buf IP_DADDR) = .ok (some r))
    (httl : rd8 buf IP_TTL ≤ 1) :
    ∃ out s, dispatch root L st interface buf len = .ok { state := st, buf := out, sent := [s] } ∧
      s.interface = interface ∧
      s.frame.length = 42 ∧
      rd8 s.frame ICMP_TYPE = 11 ∧
      rd8 s.frame ICMP_CODE = 0 ∧
      rd8 s.frame IP_PROTOCOL = 1 ∧
      rd32 s.frame IP_DADDR = rd32 buf IP_SADDR := by
  have hna := ipv4_frame_not_arp buf htype
  obtain ⟨f1, f2, -, f4, f5, -, -, -, -, -, -, f12, f13, -⟩ :=
    send_icmp_packet_frame L (icmp_error_header 11 buf) buf interface
  obtain ⟨-, g2, g3, -⟩ := icmp_error_header_fields 11 buf
  refine ⟨_, _, (by
    unfold dispatch
    rw [if_neg (fun h => hna h.1), if_neg (fun h => hna h.1), if_neg (fun h => h htype)]
    unfold handle_ipv4
    rw [if_neg (fun h => h hck)]
    simp only [if_neg hecho, hroute, if_pos httl]
    exact rfl), f1, f2, ?_, ?_, f5, f4⟩
  · rw [f12, g2]
  · rw [f13, g3]

/-- C5, counterexample: the echo request `frame_echo` (valid checksum, TTL 64, a route for its
destination, next hop in the ARP table) is forwarded, but the frame sent differs from the
input in the ICMP type and in both IP addresses, which the claim says are left as received. -/
theorem forwarded_echo_is_rewritten :
    checksum (rdN frame_echo IP_VHL IP_LEN) = 0 ∧
    1 < rd8 frame_echo IP_TTL ∧
    get_best_route (build_trie example_rtable) (rd32 frame_echo IP_DADDR) = .ok (some route_A) ∧
    get_arp_entry state_resolved.arp_table route_A.next_hop
      = some { ip := ipv4 10 0 0 2, mac := [2, 0, 0, 0, 0, 170] } ∧
    ∃ out s, dispatch (build_trie example_rtable) example_links state_resolved 0 frame_echo 42
        = .ok { state := state_resolved, buf := out, sent := [s] } ∧
      s.frame.getD 34 0 ≠ frame_echo.getD 34 0 ∧
      rd32 s.frame IP_SADDR ≠ rd32 frame_echo IP_SADDR ∧
      rd32 s.frame IP_DADDR ≠ rd32 frame_echo IP_DADDR :=
  ⟨by decide, by decide, rfl, rfl,
    [2, 0, 0, 0, 0, 170, 2, 0, 0, 0, 0, 1, 8, 0,
     69, 0, 0, 28, 171, 205, 0, 0, 63, 1, 188, 17, 10, 0, 0, 1, 10, 0, 0, 2,
     0, 0, 255, 255, 0, 0, 0, 0],
    { interface := 0,
      frame := [2, 0, 0, 0, 0, 170, 2, 0, 0, 0, 0, 1, 8, 0,
                69, 0, 0, 28, 171, 205, 0, 0, 63, 1, 188, 17, 10, 0, 0, 1, 10, 0, 0, 2,
                0, 0, 255, 255, 0, 0, 0, 0] },
    by rfl, by decide, by decide, by decide⟩

/-- C5, amended: for every received IPv4 frame of at least 34 bytes with a valid header
checksum that is not an ICMP packet addressed to the receiving interface, with TTL > 1, a route
returned by `get_best_route` and its next hop in the ARP table, the iteration leaves the state
unchanged and sends exactly one frame, of the same length, on the route's interface; that frame
equals the input at every offset except the two link addresses, the TTL and the check field;
its TTL is one less, its 20-byte IP header verifies, its link destination is the cached address
of the next hop and its link source is the address of the egress interface. -/
theorem forward_resolved (root : trie_node) (L : Links) (st : RouterState)
    (interface : Nat) (buf : List Nat) (len : Nat) (r : route_table_entry) (e : arp_table_entry)
    (hlen : 34 ≤ len) (hbuf : len ≤ buf.length)
    (htype : rd16 buf ETH_TYPE = ntohs 2048)
    (hck : checksum (rdN buf IP_VHL IP_LEN) = 0)
    (hecho : ¬ (rd8 buf IP_PROTOCOL = 1 ∧ L.interface_ip interface = rd32 buf IP_DADDR))
    (hroute : get_best_route root (rd32 buf IP_DADDR) = .ok (some r))
    (httl : 1 < rd8 buf IP_TTL)
    (harp : get_arp_entry st.arp_table r.next_hop = some e) :
    ∃ out s, dispatch root L st interface buf len = .ok { state := st, buf := out, sent := [s] } ∧
      s.interface = r.interface ∧
      s.frame.length = len ∧
      (∀ i, 12 ≤ i → i < len → i ≠ 22 → i ≠ 24 → i ≠ 25 → s.frame.getD i 0 = buf.getD i 0) ∧
      rd8 s.frame IP_TTL + 1 = rd8 buf IP_TTL ∧
      checksum (rdN s.frame IP_VHL IP_LEN) = 0 ∧
      rdN s.frame ETH_DHOST 6 = rdN e.mac 0 6 ∧
      rdN s.frame ETH_SHOST 6 = rdN (L.get_interface_mac r.interface) 0 6 := by
  have hna := ipv4_frame_not_arp buf htype
  have httl' : 1 < rd8 buf 22 := httl
  have hb : ∀ k, k < 34 → (k < buf.length) = True := by
    intro k hk; simp; omega
  have hl : ∀ k, k < 34 → (k < len) = True := by
    intro k hk; simp; omega
  refine ⟨_, _, (by
    unfold dispatch
    rw [if_neg (fun h => hna h.1), if_neg (fun h => hna h.1), if_neg (fun h => h htype)]
    unfold handle_ipv4
    rw [if_neg (fun h => h hck)]
    simp only [if_neg hecho, hroute, if_neg (Nat.not_le.mpr httl), harp]
    exact rfl), ?_⟩
  · refine ⟨rfl, ?_, ?_, ?_, ?_, ?_, ?_⟩
    · simp [length_store, wr8, wr16, hbuf]
    · intro i h12 hi h22 h24 h25
      simp only [getD_take, if_pos hi, wr8, wr16, getD_store]
      rw [if_neg (by simp; omega), if_neg (by simp; omega), if_neg (by simp; omega),
        if_neg (by simp; omega), if_neg (by simp; omega)]
    · simp [rd8_take, rd8_store, wr8, wr16, hb, hl, rd8_mod]
      have := rd8_lt buf 22
      omega
    · simp only [IP_VHL, IP_LEN, rdN_twenty]
      simp [rd8_take, rd8_store, wr8, wr16, length_store, hb, hl, rd8_mod]
      exact checksum_filled _ _ _ _ _ _ _ _ _ _ _ _ _ _ _ _ _ _
    · simp [rdN_six, rd8_take, rd8_store, wr8, wr16, length_store, hb, hl, rd8_mod,
        rd8_cons_zero, rd8_cons_succ]
    · simp [rdN_six, rd8_take, rd8_store, wr8, wr16, length_store, hb, hl, rd8_mod,
        rd8_cons_zero, rd8_cons_succ]

/-- Witness of `forward_resolved`: the UDP packet `frame_first`, received on interface 0 with
both neighbours resolved, is forwarded by route B. -/
theorem forward_resolved_witness :
    34 ≤ 42 ∧ 42 ≤ frame_first.length ∧
    rd16 frame_first ETH_TYPE = ntohs 2048 ∧
    checksum (rdN frame_first IP_VHL IP_LEN) = 0 ∧
    ¬ (rd8 frame_first IP_PROTOCOL = 1 ∧
        example_links.interface_ip 0 = rd32 frame_first IP_DADDR) ∧
    get_best_route (build_trie example_rtable) (rd32 frame_first IP_DADDR)
      = .ok (some route_B) ∧
    1 < rd8 frame_first IP_TTL ∧
    get_arp_entry state_resolved.arp_table route_B.next_hop
      = some { ip := ipv4 10 0 1 2, mac := [2, 0, 0, 0, 0, 187] } ∧
    ∃ out s, dispatch (build_trie example_rtable) example_links state_resolved 0 frame_first 42
        = .ok { state := state_resolved, buf := out, sent := [s] } ∧
      s.interface = route_B.interface ∧
      s.frame.length = 42 ∧
      (∀ i, 12 ≤ i → i < 42 → i ≠ 22 → i ≠ 24 → i ≠ 25 →
        s.frame.getD i 0 = frame_first.getD i 0) ∧
      rd8 s.frame IP_TTL + 1 = rd8 frame_first IP_TTL ∧
      checksum (rdN s.frame IP_VHL IP_LEN) = 0 ∧
      rdN s.frame ETH_DHOST 6 = rdN [2, 0, 0, 0, 0, 187] 0 6 ∧
      rdN s.frame ETH_SHOST 6 = rdN (example_links.get_interface_mac route_B.interface) 0 6 :=
  ⟨by decide, by decide, by decide, by decide, by decide, rfl, by decide, rfl,
    forward_resolved (build_trie example_rtable) example_links state_resolved 0 frame_first 42
      route_B { ip := ipv4 10 0 1 2, mac := [2, 0, 0, 0, 0, 187] }
      (by decide) (by decide) (by decide) (by decide) (by decide) rfl (by decide) rfl⟩

/-- C6: for `frame_no_route` the lookup returns nothing and one destination-unreachable frame
(type 3, code 0) leaves on the arrival interface, but it is 42 bytes long: the ICMP header's
last four bytes hold bytes 0..3 of the offending IP header, bytes 4..7 of that header
(`ab cd 00 00`) are nowhere in the frame, and nothing follows the ICMP header. -/
theorem unreachable_frame_carries_four_bytes :
    get_best_route (build_trie example_rtable) (rd32 frame_no_route IP_DADDR) = .ok none ∧
    ∃ out s, dispatch (build_trie example_rtable) example_links RouterState.initial 0
        frame_no_route 42
        = .ok { state := RouterState.initial, buf := out, sent := [s] } ∧
      s.interface = 0 ∧
      rd8 s.frame ICMP_TYPE = 3 ∧ rd8 s.frame ICMP_CODE = 0 ∧
      s.frame.length = ETH_LEN + IP_LEN + ICMP_LEN ∧
      rdN s.frame ICMP_UN 4 = rdN frame_no_route IP_VHL 4 ∧
      rdN frame_no_route IP_VHL 8 = [69, 0, 0, 28, 171, 205, 0, 0] ∧
      s.frame.drop ICMP_UN = [69, 0, 0, 28] ∧
      171 ∉ s.frame :=
  ⟨rfl,
    [2, 0, 0, 0, 0, 1, 2, 0, 0, 0, 0, 1, 8, 0,
     69, 0, 0, 28, 171, 205, 0, 0, 64, 17, 3, 89, 10, 0, 0, 2, 192, 168, 1, 1,
     1, 2, 3, 4, 5, 6, 7, 8],
    { interface := 0,
      frame := [2, 0, 0, 0, 0, 1, 2, 0, 0, 0, 0, 170, 8, 0,
                69, 0, 0, 28, 1, 0, 0, 0, 64, 1, 54, 174, 192, 168, 1, 1, 10, 0, 0, 2,
                3, 0, 227, 183, 69, 0, 0, 28] },
    by rfl, rfl, by decide, by decide, by decide, by decide, by decide, by decide, by decide⟩

/-- What the no-route branch does with a frame that is not an echo request to the router:
one destination-unreachable frame (type 3, code 0) of 42 bytes on the arrival interface,
addressed to the source of the received packet, whose ICMP header ends with the first four
bytes of the offending IP header; the state is unchanged. -/
theorem unreachable_sent (root : trie_node) (L : Links) (st : RouterState)
    (interface : Nat) (buf : List Nat) (len : Nat)
    (htype : rd16 buf ETH_TYPE = ntohs 2048)
    (hck : checksum (rdN buf IP_VHL IP_LEN) = 0)
    (hecho : ¬ (rd8 buf IP_PROTOCOL = 1 ∧ L.interface_ip interface = rd32 buf IP_DADDR))
    (hroute : get_best_route root (rd32 buf IP_DADDR) = .ok none) :
    ∃ out s, dispatch root L st interface buf len = .ok { state := st, buf := out, sent := [s] } ∧
      s.interface = interface ∧
      s.frame.length = 42 ∧
      rd8 s.frame ICMP_TYPE = 3 ∧
      rd8 s.frame ICMP_CODE = 0 ∧
      rd32 s.frame IP_DADDR = rd32 buf IP_SADDR ∧
      rdN s.frame ICMP_UN 4 = rdN buf IP_VHL 4 := by
  have hna := ipv4_frame_not_arp buf htype
  obtain ⟨f1, f2, -, f4, -, -, -, -, -, -, -, f12, f13, f14⟩ :=
    send_icmp_packet_frame L (icmp_error_header 3 buf) buf interface
  obtain ⟨-, g2, g3, g4⟩ := icmp_error_header_fields 3 buf
  refine ⟨_, _, (by
    unfold dispatch
    rw [if_neg (fun h => hna h.1), if_neg (fun h => hna h.1), if_neg (fun h => h htype)]
    unfold handle_ipv4
    rw [if_neg (fun h => h hck)]
    simp only [if_neg hecho, hroute]
    exact rfl), f1, f2, ?_, ?_, f4, ?_⟩
  · rw [f12, g2]
  · rw [f13, g3]
  · rw [f14, g4]

/-- C7: in the ICMP error sent for `frame_no_route` the Ethernet header is the received one,
unchanged: the destination is the received frame's destination (the router's interface,
`02:00:00:00:00:01`), not the sender's address, and the source is the sender's
`02:00:00:00:00:aa`, not the interface's address. `send_icmp_packet` writes the interface's
address into the received buffer after the header has been copied. -/
theorem icmp_error_keeps_received_ethernet_header :
    ∃ out s, dispatch (build_trie example_rtable) example_links RouterState.initial 0
        frame_no_route 42
        = .ok { state := RouterState.initial, buf := out, sent := [s] } ∧
      rdN s.frame ETH_DHOST 6 = rdN frame_no_route ETH_DHOST 6 ∧
      rdN s.frame ETH_SHOST 6 = rdN frame_no_route ETH_SHOST 6 ∧
      rdN s.frame ETH_DHOST 6 ≠ rdN frame_no_route ETH_SHOST 6 ∧
      rdN s.frame ETH_SHOST 6 ≠ rdN (example_links.get_interface_mac 0) 0 6 ∧
      rdN out ETH_SHOST 6 = rdN (example_links.get_interface_mac 0) 0 6 :=
  ⟨[2, 0, 0, 0, 0, 1, 2, 0, 0, 0, 0, 1, 8, 0,
     69, 0, 0, 28, 171, 205, 0, 0, 64, 17, 3, 89, 10, 0, 0, 2, 192, 168, 1, 1,
     1, 2, 3, 4, 5, 6, 7, 8],
    { interface := 0,
      frame := [2, 0, 0, 0, 0, 1, 2, 0, 0, 0, 0, 170, 8, 0,
                69, 0, 0, 28, 1, 0, 0, 0, 64, 1, 54, 174, 192, 168, 1, 1, 10, 0, 0, 2,
                3, 0, 227, 183, 69, 0, 0, 28] },
    by rfl, by decide, by decide, by decide, by decide, by decide⟩

/-- C8, counterexample: the ICMP error built for `frame_no_route`, received on interface 0
whose address is `10.0.0.1`, has IP source `192.168.1.1`, the destination of the offending
packet; moreover its 20-byte IP header does not verify, the stored check field being the
byte-swapped checksum. -/
theorem icmp_error_source_is_not_interface :
    (send_icmp_packet example_links (icmp_error_header 3 frame_no_route) frame_no_route 0).2
      = { interface := 0,
          frame := [2, 0, 0, 0, 0, 1, 2, 0, 0, 0, 0, 170, 8, 0,
                    69, 0, 0, 28, 1, 0, 0, 0, 64, 1, 54, 174, 192, 168, 1, 1, 10, 0, 0, 2,
                    3, 0, 227, 183, 69, 0, 0, 28] } ∧
    rd32 (send_icmp_packet example_links (icmp_error_header 3 frame_no_route)
      frame_no_route 0).2.frame IP_SADDR = ipv4 192 168 1 1 ∧
    example_links.interface_ip 0 = ipv4 10 0 0 1 ∧
    ipv4 192 168 1 1 ≠ ipv4 10 0 0 1 ∧
    checksum (rdN (send_icmp_packet example_links (icmp_error_header 3 frame_no_route)
      frame_no_route 0).2.frame IP_VHL IP_LEN) ≠ 0 :=
  ⟨rfl, by decide, by decide, by decide, by decide⟩

/-- C8, amended: in every frame built by `send_icmp_packet` the IP header has source = the
destination address of the offending header it was given, destination = that header's source
address, protocol 1, TTL 64, version 4, header length 5 and total length 28 in network byte
order; the frame is 42 bytes long and goes out on the interface passed in. -/
theorem icmp_error_ip_header (L : Links) (icmp_hdr buf : List Nat) (interface : Nat) :
    (send_icmp_packet L icmp_hdr buf interface).2.interface = interface ∧
    (send_icmp_packet L icmp_hdr buf interface).2.frame.length = 42 ∧
    rd32 (send_icmp_packet L icmp_hdr buf interface).2.frame IP_SADDR = rd32 buf IP_DADDR ∧
    rd32 (send_icmp_packet L icmp_hdr buf interface).2.frame IP_DADDR = rd32 buf IP_SADDR ∧
    rd8 (send_icmp_packet L icmp_hdr buf interface).2.frame IP_PROTOCOL = 1 ∧
    rd8 (send_icmp_packet L icmp_hdr buf interface).2.frame IP_TTL = 64 ∧
    rd8 (send_icmp_packet L icmp_hdr buf interface).2.frame IP_VHL / 16 = 4 ∧
    rd8 (send_icmp_packet L icmp_hdr buf interface).2.frame IP_VHL % 16 = 5 ∧
    ntohs (rd16 (send_icmp_packet L icmp_hdr buf interface).2.frame IP_TOT_LEN) = 28 := by
  obtain ⟨f1, f2, f3, f4, f5, f6, f7, f8, f9, -⟩ :=
    send_icmp_packet_frame L icmp_hdr buf interface
  exact ⟨f1, f2, f3, f4, f5, f6, f7, f8, f9⟩

/-! ## ARP handling -/

/-- C9: for every received ARP frame with opcode 1 whose target protocol address is the
receiving interface's address, the iteration leaves the ARP table and the queues unchanged and
sends exactly one frame, on the receiving interface: 42 bytes, an ARP reply with opcode 2,
hardware type 1, protocol type 0x0800, hlen 6, plen 4; link destination and target hardware
address are the requester's, target protocol address is the requester's, link source and
sender hardware address are the interface's, sender protocol address is the interface's. -/
theorem arp_request_answered (root : trie_node) (L : Links) (st : RouterState)
    (interface : Nat) (buf : List Nat) (len : Nat)
    (htype : rd16 buf ETH_TYPE = ntohs 2054)
    (hop : rd16 buf ARP_OP = ntohs 1)
    (htpa : rd32 buf ARP_TPA = L.interface_ip interface) :
    ∃ s, dispatch root L st interface buf len = .ok { state := st, buf := buf, sent := [s] } ∧
      s.interface = interface ∧
      s.frame.length = 42 ∧
      ntohs (rd16 s.frame ETH_TYPE) = 2054 ∧
      ntohs (rd16 s.frame ARP_OP) = 2 ∧
      ntohs (rd16 s.frame ARP_HTYPE) = 1 ∧
      ntohs (rd16 s.frame ARP_PTYPE) = 2048 ∧
      rd8 s.frame ARP_HLEN = 6 ∧
      rd8 s.frame ARP_PLEN = 4 ∧
      rdN s.frame ETH_DHOST 6 = rdN buf ARP_SHA 6 ∧
      rdN s.frame ARP_THA 6 = rdN buf ARP_SHA 6 ∧
      rd32 s.frame ARP_TPA = rd32 buf ARP_SPA ∧
      rdN s.frame ETH_SHOST 6 = rdN (L.get_interface_mac interface) 0 6 ∧
      rdN s.frame ARP_SHA 6 = rdN (L.get_interface_mac interface) 0 6 ∧
      rd32 s.frame ARP_SPA = L.interface_ip interface := by
  refine ⟨send_arp_response L (rdN buf ARP_SHA 6) (rd32 buf ARP_SPA) (rd32 buf ARP_TPA)
    interface, ?_, ?_⟩
  · unfold dispatch
    rw [if_pos ⟨htype, htpa, hop⟩]
  · rw [← htpa]
    simp [send_arp_response, wr8, wr16, wr32, rd16, rd32, rdN_six, rd8_store, length_store,
      length_malloc, rd8_malloc, rd8_mod, rd8_cons_zero, rd8_cons_succ, htons, ntohs]
    simp only [rd8]
    omega

/-- Witness of `arp_request_answered`: the request `frame_arp_request` received on
interface 0. -/
theorem arp_request_answered_witness :
    rd16 frame_arp_request ETH_TYPE = ntohs 2054 ∧
    rd16 frame_arp_request ARP_OP = ntohs 1 ∧
    rd32 frame_arp_request ARP_TPA = example_links.interface_ip 0 ∧
    ∃ s, dispatch (build_trie example_rtable) example_links RouterState.initial 0
        frame_arp_request 42
        = .ok { state := RouterState.initial, buf := frame_arp_request, sent := [s] } ∧
      s.interface = 0 ∧
      s.frame.length = 42 ∧
      ntohs (rd16 s.frame ETH_TYPE) = 2054 ∧
      ntohs (rd16 s.frame ARP_OP) = 2 ∧
      ntohs (rd16 s.frame ARP_HTYPE) = 1 ∧
      ntohs (rd16 s.frame ARP_PTYPE) = 2048 ∧
      rd8 s.frame ARP_HLEN = 6 ∧
      rd8 s.frame ARP_PLEN = 4 ∧
      rdN s.frame ETH_DHOST 6 = rdN frame_arp_request ARP_SHA 6 ∧
      rdN s.frame ARP_THA 6 = rdN frame_arp_request ARP_SHA 6 ∧
      rd32 s.frame ARP_TPA = rd32 frame_arp_request ARP_SPA ∧
      rdN s.frame ETH_SHOST 6 = rdN (example_links.get_interface_mac 0) 0 6 ∧
      rdN s.frame ARP_SHA 6 = rdN (example_links.get_interface_mac 0) 0 6 ∧
      rd32 s.frame ARP_SPA = example_links.interface_ip 0 :=
  ⟨by decide, by decide, by decide,
    arp_request_answered (build_trie example_rtable) example_links RouterState.initial 0
      frame_arp_request 42 (by decide) (by decide) (by decide)⟩

/-- C10: two packets for the unresolved next hop `10.0.1.2` are received, `frame_first`
(42 bytes) and then `frame_second` (44 bytes); each is queued and an ARP request goes out.
The ARP reply from `10.0.1.2` then arrives twice. The first reply does not send the packet
queued first: the frame sent is `frame_second`, 44 bytes, and the second reply sends
`frame_second` again. The queues hold the address of the one array `aux_buf`, which the
second packet has overwritten; the first packet is never sent. -/
theorem arp_reply_replays_last_queued_packet :
    receive_loop (build_trie example_rtable) example_links RouterState.initial
      [{ interface := 0, buf := frame_first, len := 42 },
       { interface := 0, buf := frame_second, len := 44 },
       { interface := 1, buf := frame_arp_reply, len := 42 },
       { interface := 1, buf := frame_arp_reply, len := 42 }]
      = .ok ({ arp_table := [{ ip := ipv4 10 0 1 2, mac := [2, 0, 0, 0, 0, 187] }],
               buf_q := [], len_q := [], interface_q := [],
               aux_buf := frame_second_patched, aux_len := 44, aux_interface := 1 },
             [{ interface := 1, frame := frame_arp_query },
              { interface := 1, frame := frame_arp_query },
              { interface := 1, frame := frame_second_patched },
              { interface := 1, frame := frame_second_patched }]) ∧
    frame_second_patched.length = 44 ∧
    frame_first.length = 42 ∧
    frame_second_patched.drop IP_SADDR = frame_second.drop IP_SADDR ∧
    frame_first.drop IP_SADDR ≠ frame_second.drop IP_SADDR :=
  ⟨by rfl, by decide, by decide, by decide, by decide⟩

/-! ## The ARP table -/

theorem get_arp_entry_ip (table : List arp_table_entry) (ip : Nat) (e : arp_table_entry)
    (h : get_arp_entry table ip = some e) : e.ip = ip := by
  induction table with
  | nil => cases h
  | cons x rest ih =>
    rw [get_arp_entry] at h
    split at h
    · cases h; rename_i hx; exact hx.symm
    · exact ih h

theorem get_arp_entry_append_present (table : List arp_table_entry) (ip : Nat)
    (e x : arp_table_entry) (h : get_arp_entry table ip = some e) :
    get_arp_entry (table ++ [x]) ip = some e := by
  induction table with
  | nil => cases h
  | cons y rest ih =>
    rw [List.cons_append, get_arp_entry]
    rw [get_arp_entry] at h
    split
    · rename_i hy; rw [if_pos hy] at h; exact h
    · rename_i hy; rw [if_neg hy] at h; exact ih h

theorem get_arp_entry_append_absent (table : List arp_table_entry) (ip : Nat)
    (mac : List Nat) (h : get_arp_entry table ip = none) :
    get_arp_entry (table ++ [{ ip := ip, mac := mac }]) ip = some { ip := ip, mac := mac } := by
  induction table with
  | nil => simp [get_arp_entry]
  | cons y rest ih =>
    rw [List.cons_append, get_arp_entry]
    rw [get_arp_entry] at h
    split
    · rename_i hy; rw [if_pos hy] at h; cases h
    · rename_i hy; rw [if_neg hy] at h; exact ih h

theorem get_arp_entry_none_count (table : List arp_table_entry) (ip : Nat)
    (h : get_arp_entry table ip = none) :
    (table.filter (fun e => e.ip = ip)).length = 0 := by
  induction table with
  | nil => rfl
  | cons y rest ih =>
    rw [get_arp_entry] at h
    split at h
    · cases h
    · rename_i hy
      have hy' : ¬ y.ip = ip := fun h' => hy h'.symm
      simp [List.filter_cons, hy', ih h]

theorem get_arp_entry_some_count (table : List arp_table_entry) (ip : Nat)
    (e : arp_table_entry) (h : get_arp_entry table ip = some e) :
    0 < (table.filter (fun e => e.ip = ip)).length := by
  induction table with
  | nil => cases h
  | cons y rest ih =>
    rw [get_arp_entry] at h
    split at h
    · rename_i hy
      simp [List.filter_cons, hy.symm]
    · rename_i hy
      have hy' : ¬ y.ip = ip := fun h' => hy h'.symm
      simpa [List.filter_cons, hy'] using ih h

/-- The ARP-reply branch on a state whose three queues have the same length: it returns, the
table is the old one when the sender is present and the old one with the sender's pair
appended when it is absent, and the queues keep the same length. -/
theorem handle_arp_reply_table (st : RouterState) (buf : List Nat)
    (hq : st.len_q.length = st.buf_q.length ∧ st.interface_q.length = st.buf_q.length) :
    ∃ o, handle_arp_reply st buf = .ok o ∧
      (∀ e, get_arp_entry st.arp_table (rd32 buf ARP_SPA) = some e →
        o.state.arp_table = st.arp_table) ∧
      (get_arp_entry st.arp_table (rd32 buf ARP_SPA) = none →
        o.state.arp_table
          = st.arp_table ++ [{ ip := rd32 buf ARP_SPA, mac := rdN buf ARP_SHA 6 }]) ∧
      (o.state.len_q.length = o.state.buf_q.length ∧
        o.state.interface_q.length = o.state.buf_q.length) ∧
      (st.buf_q = [] → o.sent = [] ∧ o.state.buf_q = [] ∧ o.state.len_q = [] ∧
        o.state.interface_q = []) := by
  obtain ⟨hq1, hq2⟩ := hq
  have key : ∀ (table : List arp_table_entry) (d : arp_table_entry),
      (∃ o, (if queue_empty st.buf_q then
          (Except.ok { state := { st with arp_table := table }, buf := buf, sent := [] } :
            Except Fault Outcome)
        else
          match queue_deq st.buf_q, queue_deq st.len_q, queue_deq st.interface_q with
          | .ok (.aux_buf, buf_q), .ok (.aux_len, len_q), .ok (.aux_interface, interface_q) =>
              .ok { state := { st with arp_table := table, buf_q := buf_q, len_q := len_q,
                                       interface_q := interface_q,
                                       aux_buf := store st.aux_buf ETH_DHOST (rdN d.mac 0 6) },
                    buf := buf,
                    sent := [{ interface := st.aux_interface,
                               frame := (store st.aux_buf ETH_DHOST (rdN d.mac 0 6)).take
                                 st.aux_len }] }
          | .error f, _, _ => .error f
          | _, .error f, _ => .error f
          | _, _, .error f => .error f) = .ok o ∧
        o.state.arp_table = table ∧
        (o.state.len_q.length = o.state.buf_q.length ∧
          o.state.interface_q.length = o.state.buf_q.length) ∧
        (st.buf_q = [] → o.sent = [] ∧ o.state.buf_q = [] ∧ o.state.len_q = [] ∧
          o.state.interface_q = [])) := by
    intro table d
    cases hb : st.buf_q with
    | nil =>
      have h1 : st.len_q = [] := List.length_eq_zero.1 (by rw [hq1, hb]; rfl)
      have h2 : st.interface_q = [] := List.length_eq_zero.1 (by rw [hq2, hb]; rfl)
      refine ⟨_, by rw [queue_empty, List.isEmpty_nil, if_pos rfl], rfl, ?_, ?_⟩
      · simp [h1, h2, hb]
      · intro _; simp [h1, h2, hb]
    | cons p q =>
      rw [hb] at hq1 hq2
      cases hl : st.len_q with
      | nil => rw [hl] at hq1; cases hq1
      | cons p2 q2 =>
        cases hi : st.interface_q with
        | nil => rw [hi] at hq2; cases hq2
        | cons p3 q3 =>
          rw [hl] at hq1; rw [hi] at hq2
          cases p; cases p2; cases p3
          refine ⟨_, by rw [queue_empty, List.isEmpty_cons, if_neg (by simp)]; rfl, rfl, ?_, ?_⟩
          · simp at hq1 hq2 ⊢
            omega
          · intro h; cases h
  cases h : get_arp_entry st.arp_table (rd32 buf ARP_SPA) with
  | none =>
    obtain ⟨o, ho, h1, h2, h3⟩ := key
      (st.arp_table ++ [{ ip := rd32 buf ARP_SPA, mac := rdN buf ARP_SHA 6 }])
      { ip := rd32 buf ARP_SPA, mac := rdN buf ARP_SHA 6 }
    refine ⟨o, ?_, fun e he => (by cases he), fun _ => h1, h2, h3⟩
    unfold handle_arp_reply
    simp only [h, get_arp_entry_append_absent _ _ _ h]
    exact ho
  | some e =>
    obtain ⟨o, ho, h1, h2, h3⟩ := key st.arp_table e
    refine ⟨o, ?_, fun _ _ => h1, fun he => (by cases he), h2, h3⟩
    unfold handle_arp_reply
    simp only [h]
    exact ho

/-- One iteration of the receive loop keeps the three queues at the same length. -/
theorem dispatch_keeps_queues_aligned (root : trie_node) (L : Links) (st : RouterState)
    (interface : Nat) (buf : List Nat) (len : Nat) (o : Outcome)
    (hq : st.len_q.length = st.buf_q.length ∧ st.interface_q.length = st.buf_q.length)
    (h : dispatch root L st interface buf len = .ok o) :
    o.state.len_q.length = o.state.buf_q.length ∧
      o.state.interface_q.length = o.state.buf_q.length := by
  unfold dispatch at h
  split at h
  · cases h; exact hq
  · split at h
    · obtain ⟨o', ho', -, -, h3, -⟩ := handle_arp_reply_table st buf hq
      rw [ho'] at h
      cases h
      exact h3
    · split at h
      · cases h; exact hq
      · unfold handle_ipv4 at h
        simp only at h
        repeat' (split at h)
        all_goals first
          | (cases h; done)
          | (cases h; exact hq)
          | (cases h
             simp only [queue_enq, List.length_append, List.length_singleton]
             omega)

/-- Every state the receive loop reaches from the initial state has its three queues at the
same length. -/
theorem receive_loop_queues_aligned (root : trie_node) (L : Links) (rxs : List Received) :
    ∀ (st st' : RouterState) (sent : List Sent),
      (st.len_q.length = st.buf_q.length ∧ st.interface_q.length = st.buf_q.length) →
      receive_loop root L st rxs = .ok (st', sent) →
      st'.len_q.length = st'.buf_q.length ∧ st'.interface_q.length = st'.buf_q.length := by
  induction rxs with
  | nil =>
    intro st st' sent hq h
    rw [receive_loop] at h
    cases h
    exact hq
  | cons rx rest ih =>
    intro st st' sent hq h
    rw [receive_loop] at h
    split at h
    · cases h
    · rename_i o ho
      split at h
      · cases h
      · rename_i st2 sent2 h2
        cases h
        exact ih o.state st' sent2
          (dispatch_keeps_queues_aligned root L st rx.interface rx.buf rx.len o hq ho) h2

theorem dispatch_arp_reply (root : trie_node) (L : Links) (st : RouterState)
    (interface : Nat) (buf : List Nat) (len : Nat)
    (h : rd16 buf ETH_TYPE = ntohs 2054 ∧ rd32 buf ARP_TPA = L.interface_ip interface ∧
      rd16 buf ARP_OP = ntohs 2) :
    dispatch root L st interface buf len = handle_arp_reply st buf := by
  have hop : ¬ rd16 buf ARP_OP = ntohs 1 := by rw [h.2.2]; decide
  unfold dispatch
  rw [if_neg (fun h' => hop h'.2.2), if_pos h]

/-- C11: recording a resolution is idempotent and never overwrites. In a state whose queues
are aligned, an ARP reply addressed to the receiving interface is processed without fault; if
the sender's address is already in the table the table is unchanged, whatever link address
the reply carries, and if it is absent exactly one entry, the sender's pair, is appended.
A second reply from the same address leaves the table as the first left it, the lookup of
that address returns the entry that was there first, and a table with at most one entry for
the address ends with exactly one. -/
theorem arp_reply_recorded_once (root : trie_node) (L : Links) (st : RouterState)
    (i1 : Nat) (buf1 : List Nat) (len1 : Nat) (i2 : Nat) (buf2 : List Nat) (len2 : Nat)
    (h1 : rd16 buf1 ETH_TYPE = ntohs 2054 ∧ rd32 buf1 ARP_TPA = L.interface_ip i1 ∧
      rd16 buf1 ARP_OP = ntohs 2)
    (h2 : rd16 buf2 ETH_TYPE = ntohs 2054 ∧ rd32 buf2 ARP_TPA = L.interface_ip i2 ∧
      rd16 buf2 ARP_OP = ntohs 2)
    (hsame : rd32 buf2 ARP_SPA = rd32 buf1 ARP_SPA)
    (hq : st.len_q.length = st.buf_q.length ∧ st.interface_q.length = st.buf_q.length) :
    ∃ o1 o2, dispatch root L st i1 buf1 len1 = .ok o1 ∧
      dispatch root L o1.state i2 buf2 len2 = .ok o2 ∧
      (∀ e, get_arp_entry st.arp_table (rd32 buf1 ARP_SPA) = some e →
        o1.state.arp_table = st.arp_table ∧
        get_arp_entry o2.state.arp_table (rd32 buf1 ARP_SPA) = some e) ∧
      (get_arp_entry st.arp_table (rd32 buf1 ARP_SPA) = none →
        o1.state.arp_table
          = st.arp_table ++ [{ ip := rd32 buf1 ARP_SPA, mac := rdN buf1 ARP_SHA 6 }] ∧
        get_arp_entry o2.state.arp_table (rd32 buf1 ARP_SPA)
          = some { ip := rd32 buf1 ARP_SPA, mac := rdN buf1 ARP_SHA 6 }) ∧
      o2.state.arp_table = o1.state.arp_table ∧
      ((st.arp_table.filter (fun e => e.ip = rd32 buf1 ARP_SPA)).length ≤ 1 →
        (o2.state.arp_table.filter (fun e => e.ip = rd32 buf1 ARP_SPA)).length = 1) := by
  obtain ⟨o1, ho1, a1, a2, a3, -⟩ := handle_arp_reply_table st buf1 hq
  obtain ⟨o2, ho2, b1, b2, -, -⟩ := handle_arp_reply_table o1.state buf2 a3
  rw [hsame] at b1 b2
  have hfound : ∃ d, get_arp_entry o1.state.arp_table (rd32 buf1 ARP_SPA) = some d ∧
      (∀ e, get_arp_entry st.arp_table (rd32 buf1 ARP_SPA) = some e → d = e) ∧
      (get_arp_entry st.arp_table (rd32 buf1 ARP_SPA) = none →
        d = { ip := rd32 buf1 ARP_SPA, mac := rdN buf1 ARP_SHA 6 }) := by
    cases h : get_arp_entry st.arp_table (rd32 buf1 ARP_SPA) with
    | none =>
      refine ⟨_, ?_, fun e he => (by cases he), fun _ => rfl⟩
      rw [a2 h]
      exact get_arp_entry_append_absent _ _ _ h
    | some e =>
      refine ⟨e, ?_, fun e' he => (by cases he; rfl), fun he => (by cases he)⟩
      rw [a1 e h]
      exact h
  obtain ⟨d, hd, hd1, hd2⟩ := hfound
  have htab : o2.state.arp_table = o1.state.arp_table := b1 d hd
  refine ⟨o1, o2, ?_, ?_, ?_, ?_, htab, ?_⟩
  · rw [dispatch_arp_reply root L st i1 buf1 len1 h1]; exact ho1
  · rw [dispatch_arp_reply root L o1.state i2 buf2 len2 h2]; exact ho2
  · intro e he
    refine ⟨a1 e he, ?_⟩
    rw [htab, hd, hd1 e he]
  · intro he
    refine ⟨a2 he, ?_⟩
    rw [htab, hd, hd2 he]
  · intro hc
    rw [htab]
    cases h : get_arp_entry st.arp_table (rd32 buf1 ARP_SPA) with
    | none =>
      rw [a2 h, List.filter_append, List.length_append, get_arp_entry_none_count _ _ h]
      simp
    | some e =>
      rw [a1 e h]
      have := get_arp_entry_some_count _ _ e h
      omega

/-- Witness of `arp_reply_recorded_once`: the reply `frame_arp_reply` received twice on
interface 1, starting from the initial state. -/
theorem arp_reply_recorded_once_witness :
    (rd16 frame_arp_reply ETH_TYPE = ntohs 2054 ∧
      rd32 frame_arp_reply ARP_TPA = example_links.interface_ip 1 ∧
      rd16 frame_arp_reply ARP_OP = ntohs 2) ∧
    (RouterState.initial.len_q.length = RouterState.initial.buf_q.length ∧
      RouterState.initial.interface_q.length = RouterState.initial.buf_q.length) ∧
    ∃ o1 o2, dispatch (build_trie example_rtable) example_links RouterState.initial 1
        frame_arp_reply 42 = .ok o1 ∧
      dispatch (build_trie example_rtable) example_links o1.state 1 frame_arp_reply 42
        = .ok o2 ∧
      (∀ e, get_arp_entry RouterState.initial.arp_table (rd32 frame_arp_reply ARP_SPA) = some e →
        o1.state.arp_table = RouterState.initial.arp_table ∧
        get_arp_entry o2.state.arp_table (rd32 frame_arp_reply ARP_SPA) = some e) ∧
      (get_arp_entry RouterState.initial.arp_table (rd32 frame_arp_reply ARP_SPA) = none →
        o1.state.arp_table
          = RouterState.initial.arp_table ++
            [{ ip := rd32 frame_arp_reply ARP_SPA, mac := rdN frame_arp_reply ARP_SHA 6 }] ∧
        get_arp_entry o2.state.arp_table (rd32 frame_arp_reply ARP_SPA)
          = some { ip := rd32 frame_arp_reply ARP_SPA, mac := rdN frame_arp_reply ARP_SHA 6 }) ∧
      o2.state.arp_table = o1.state.arp_table ∧
      ((RouterState.initial.arp_table.filter
          (fun e => e.ip = rd32 frame_arp_reply ARP_SPA)).length ≤ 1 →
        (o2.state.arp_table.filter
          (fun e => e.ip = rd32 frame_arp_reply ARP_SPA)).length = 1) :=
  ⟨by decide, by decide,
    arp_reply_recorded_once (build_trie example_rtable) example_links RouterState.initial
      1 frame_arp_reply 42 1 frame_arp_reply 42 (by decide) (by decide) rfl (by decide)⟩

/-! ## The unresolved next hop -/

theorem length_echo_reply (buf : List Nat) : (echo_reply buf).length = buf.length := by
  simp [echo_reply, wr8, wr16, wr32]

theorem length_routed_packet (L : Links) (interface : Nat) (buf : List Nat) :
    (routed_packet L interface buf).length = buf.length := by
  unfold routed_packet
  split
  · exact length_echo_reply buf
  · rfl

/-- The IPv4 part of the loop body on a frame that passed the checksum test: what follows
the echo test works on `routed_packet`. -/
theorem handle_ipv4_routed (root : trie_node) (L : Links) (st : RouterState) (interface : Nat)
    (buf : List Nat) (len : Nat) (r : route_table_entry)
    (htype : rd16 buf ETH_TYPE = ntohs 2048)
    (hck : checksum (rdN buf IP_VHL IP_LEN) = 0)
    (hroute : get_best_route root (rd32 (routed_packet L interface buf) IP_DADDR)
      = .ok (some r))
    (httl : 1 < rd8 (routed_packet L interface buf) IP_TTL) :
    dispatch root L st interface buf len =
      (match get_arp_entry st.arp_table r.next_hop with
       | none =>
           .ok { state :=
                   { st with
                     aux_buf :=
                       (wr16 (wr16 (wr8 (routed_packet L interface buf) IP_TTL
                            (rd8 (routed_packet L interface buf) IP_TTL - 1)) IP_CHECK 0)
                          IP_CHECK
                          (htons (checksum (rdN (wr16 (wr8 (routed_packet L interface buf)
                            IP_TTL (rd8 (routed_packet L interface buf) IP_TTL - 1))
                            IP_CHECK 0) IP_VHL IP_LEN)))).take len ++ st.aux_buf.drop len,
                     aux_len := len,
                     aux_interface := r.interface,
                     buf_q := queue_enq st.buf_q .aux_buf,
                     len_q := queue_enq st.len_q .aux_len,
                     interface_q := queue_enq st.interface_q .aux_interface },
                 buf := wr16 (wr16 (wr8 (routed_packet L interface buf) IP_TTL
                            (rd8 (routed_packet L interface buf) IP_TTL - 1)) IP_CHECK 0)
                          IP_CHECK
                          (htons (checksum (rdN (wr16 (wr8 (routed_packet L interface buf)
                            IP_TTL (rd8 (routed_packet L interface buf) IP_TTL - 1))
                            IP_CHECK 0) IP_VHL IP_LEN))),
                 sent := [send_arp_request L r.next_hop r.interface] }
       | some dest_mac =>
           .ok { state := st,
                 buf := store (store (wr16 (wr16 (wr8 (routed_packet L interface buf) IP_TTL
                            (rd8 (routed_packet L interface buf) IP_TTL - 1)) IP_CHECK 0)
                          IP_CHECK
                          (htons (checksum (rdN (wr16 (wr8 (routed_packet L interface buf)
                            IP_TTL (rd8 (routed_packet L interface buf) IP_TTL - 1))
                            IP_CHECK 0) IP_VHL IP_LEN)))) ETH_DHOST (rdN dest_mac.mac 0 6))
                          ETH_SHOST (rdN (L.get_interface_mac r.interface) 0 6),
                 sent := [{ interface := r.interface,
                            frame := (store (store (wr16 (wr16 (wr8
                              (routed_packet L interface buf) IP_TTL
                              (rd8 (routed_packet L interface buf) IP_TTL - 1)) IP_CHECK 0)
                              IP_CHECK
                              (htons (checksum (rdN (wr16 (wr8 (routed_packet L interface buf)
                                IP_TTL (rd8 (routed_packet L interface buf) IP_TTL - 1))
                                IP_CHECK 0) IP_VHL IP_LEN)))) ETH_DHOST (rdN dest_mac.mac 0 6))
                              ETH_SHOST (rdN (L.get_interface_mac r.interface) 0 6)).take
                              len }] }) := by
  have hna := ipv4_frame_not_arp buf htype
  unfold dispatch
  rw [if_neg (fun h => hna h.1), if_neg (fun h => hna h.1), if_neg (fun h => h htype)]
  unfold handle_ipv4
  rw [if_neg (fun h => h hck)]
  unfold routed_packet at hroute httl ⊢
  simp only [hroute, if_neg (Nat.not_le.mpr httl)]

theorem getD_take_append (x rest : List Nat) (len i : Nat) (hi : i < len)
    (hx : len ≤ x.length) : (x.take len ++ rest).getD i 0 = x.getD i 0 := by
  simp only [List.getD_eq_getElem?_getD]
  rw [List.getElem?_append_left (by simp; omega), List.getElem?_take_of_lt hi]

theorem rd8_take_append (x rest : List Nat) (len i : Nat) (hi : i < len)
    (hx : len ≤ x.length) : rd8 (x.take len ++ rest) i = rd8 x i := by
  unfold rd8
  rw [getD_take_append x rest len i hi hx]

/-- The packet after the TTL and checksum update of `main`, for any packet `p` of at least 34
bytes: every byte but the TTL and the check field is kept, the TTL is one less and the
20-byte header verifies. -/
theorem ttl_checksum_update (p : List Nat) (hp : 34 ≤ p.length) (httl : 1 < rd8 p IP_TTL) :
    (wr16 (wr16 (wr8 p IP_TTL (rd8 p IP_TTL - 1)) IP_CHECK 0) IP_CHECK
        (htons (checksum (rdN (wr16 (wr8 p IP_TTL (rd8 p IP_TTL - 1)) IP_CHECK 0)
          IP_VHL IP_LEN)))).length = p.length ∧
    (∀ i, i ≠ 22 → i ≠ 24 → i ≠ 25 →
      (wr16 (wr16 (wr8 p IP_TTL (rd8 p IP_TTL - 1)) IP_CHECK 0) IP_CHECK
        (htons (checksum (rdN (wr16 (wr8 p IP_TTL (rd8 p IP_TTL - 1)) IP_CHECK 0)
          IP_VHL IP_LEN)))).getD i 0 = p.getD i 0) ∧
    rd8 (wr16 (wr16 (wr8 p IP_TTL (rd8 p IP_TTL - 1)) IP_CHECK 0) IP_CHECK
        (htons (checksum (rdN (wr16 (wr8 p IP_TTL (rd8 p IP_TTL - 1)) IP_CHECK 0)
          IP_VHL IP_LEN)))) IP_TTL + 1 = rd8 p IP_TTL ∧
    checksum (rdN (wr16 (wr16 (wr8 p IP_TTL (rd8 p IP_TTL - 1)) IP_CHECK 0) IP_CHECK
        (htons (checksum (rdN (wr16 (wr8 p IP_TTL (rd8 p IP_TTL - 1)) IP_CHECK 0)
          IP_VHL IP_LEN)))) IP_VHL IP_LEN) = 0 := by
  have httl' : 1 < rd8 p 22 := httl
  have hb : ∀ k, k < 34 → (k < p.length) = True := by
    intro k hk; simp; omega
  refine ⟨?_, ?_, ?_, ?_⟩
  · simp [wr8, wr16]
  · intro i h22 h24 h25
    simp only [wr8, wr16, getD_store]
    rw [if_neg (by simp; omega), if_neg (by simp; omega), if_neg (by simp; omega)]
  · simp [rd8_store, wr8, wr16, hb, rd8_mod]
    have := rd8_lt p 22
    omega
  · simp only [IP_VHL, IP_LEN, rdN_twenty]
    simp [rd8_store, wr8, wr16, length_store, hb, rd8_mod]
    exact checksum_filled _ _ _ _ _ _ _ _ _ _ _ _ _ _ _ _ _ _

/-- The frame built by `send_arp_request`. -/
theorem send_arp_request_frame (L : Links) (target_ip interface : Nat) :
    (send_arp_request L target_ip interface).interface = interface ∧
    (send_arp_request L target_ip interface).frame.length = 42 ∧
    rdN (send_arp_request L target_ip interface).frame ETH_DHOST 6
      = [255, 255, 255, 255, 255, 255] ∧
    rdN (send_arp_request L target_ip interface).frame ETH_SHOST 6
      = rdN (L.get_interface_mac interface) 0 6 ∧
    ntohs (rd16 (send_arp_request L target_ip interface).frame ETH_TYPE) = 2054 ∧
    ntohs (rd16 (send_arp_request L target_ip interface).frame ARP_HTYPE) = 1 ∧
    ntohs (rd16 (send_arp_request L target_ip interface).frame ARP_PTYPE) = 2048 ∧
    rd8 (send_arp_request L target_ip interface).frame ARP_HLEN = 6 ∧
    rd8 (send_arp_request L target_ip interface).frame ARP_PLEN = 4 ∧
    ntohs (rd16 (send_arp_request L target_ip interface).frame ARP_OP) = 1 ∧
    rdN (send_arp_request L target_ip interface).frame ARP_SHA 6
      = rdN (L.get_interface_mac interface) 0 6 ∧
    rd32 (send_arp_request L target_ip interface).frame ARP_SPA
      = L.interface_ip interface % 4294967296 ∧
    rdN (send_arp_request L target_ip interface).frame ARP_THA 6 = [0, 0, 0, 0, 0, 0] ∧
    rd32 (send_arp_request L target_ip interface).frame ARP_TPA = target_ip % 4294967296 := by
  simp [send_arp_request, wr8, wr16, wr32, rd16, rd32, rdN_six, rd8_store, length_store,
    length_malloc, rd8_malloc, rd8_mod, rd8_cons_zero, rd8_cons_succ, htons, ntohs,
    getElem_rdN]
  omega

/-- The unresolved-next-hop branch on the packet as `main` routes it (the received one, or
its echo-reply rewrite when it is an ICMP packet for the receiving interface): each queue gets
one pointer at its tail, the storage `aux_buf`, `aux_len`, `aux_interface` then holds the
routed packet with the TTL decremented and a check field that verifies, the length and the
route's interface, and the only frame sent is the ARP request for the next hop. -/
theorem unresolved_next_hop_routed (root : trie_node) (L : Links) (st : RouterState)
    (interface : Nat) (buf : List Nat) (len : Nat) (r : route_table_entry)
    (hlen : 34 ≤ len) (hbuf : len ≤ buf.length)
    (htype : rd16 buf ETH_TYPE = ntohs 2048)
    (hck : checksum (rdN buf IP_VHL IP_LEN) = 0)
    (hroute : get_best_route root (rd32 (routed_packet L interface buf) IP_DADDR)
      = .ok (some r))
    (httl : 1 < rd8 (routed_packet L interface buf) IP_TTL)
    (harp : get_arp_entry st.arp_table r.next_hop = none) :
    ∃ st' out s, dispatch root L st interface buf len
        = .ok { state := st', buf := out, sent := [s] } ∧
      st'.arp_table = st.arp_table ∧
      st'.buf_q = st.buf_q ++ [.aux_buf] ∧
      st'.len_q = st.len_q ++ [.aux_len] ∧
      st'.interface_q = st.interface_q ++ [.aux_interface] ∧
      st'.aux_len = len ∧
      st'.aux_interface = r.interface ∧
      (∀ i, i < len → i ≠ 22 → i ≠ 24 → i ≠ 25 →
        st'.aux_buf.getD i 0 = (routed_packet L interface buf).getD i 0) ∧
      rd8 st'.aux_buf IP_TTL + 1 = rd8 (routed_packet L interface buf) IP_TTL ∧
      checksum (rdN st'.aux_buf IP_VHL IP_LEN) = 0 ∧
      (¬ (rd8 buf IP_PROTOCOL = 1 ∧ L.interface_ip interface = rd32 buf IP_DADDR) →
        routed_packet L interface buf = buf) ∧
      s.interface = r.interface ∧
      s.frame.length = 42 ∧
      rdN s.frame ETH_DHOST 6 = [255, 255, 255, 255, 255, 255] ∧
      ntohs (rd16 s.frame ETH_TYPE) = 2054 ∧
      ntohs (rd16 s.frame ARP_OP) = 1 ∧
      rdN s.frame ETH_SHOST 6 = rdN (L.get_interface_mac r.interface) 0 6 ∧
      rdN s.frame ARP_SHA 6 = rdN (L.get_interface_mac r.interface) 0 6 ∧
      rd32 s.frame ARP_SPA = L.interface_ip r.interface % 4294967296 ∧
      rd32 s.frame ARP_TPA = r.next_hop % 4294967296 := by
  have hd := handle_ipv4_routed root L st interface buf len r htype hck hroute httl
  rw [harp] at hd
  have hplen : 34 ≤ (routed_packet L interface buf).length := by
    rw [length_routed_packet]; omega
  obtain ⟨u1, u2, u3, u4⟩ := ttl_checksum_update (routed_packet L interface buf) hplen httl
  obtain ⟨f1, f2, f3, f4, f5, -, -, -, -, f10, f11, f12, -, f14⟩ :=
    send_arp_request_frame L r.next_hop r.interface
  have hxlen : len ≤ (wr16 (wr16 (wr8 (routed_packet L interface buf) IP_TTL
      (rd8 (routed_packet L interface buf) IP_TTL - 1)) IP_CHECK 0) IP_CHECK
      (htons (checksum (rdN (wr16 (wr8 (routed_packet L interface buf) IP_TTL
        (rd8 (routed_packet L interface buf) IP_TTL - 1)) IP_CHECK 0)
        IP_VHL IP_LEN)))).length := by
    rw [u1, length_routed_packet]; exact hbuf
  refine ⟨_, _, _, hd, rfl, rfl, rfl, rfl, rfl, rfl, ?_, ?_, ?_, ?_,
    f1, f2, f3, f5, f10, f4, f11, f12, f14⟩
  · intro i hi h22 h24 h25
    show (List.take len _ ++ _).getD i 0 = _
    rw [getD_take_append _ _ len i hi hxlen]
    exact u2 i h22 h24 h25
  · show rd8 (List.take len _ ++ _) IP_TTL + 1 = _
    rw [rd8_take_append _ _ len IP_TTL (by simp; omega) hxlen]
    exact u3
  · have hrd : rdN (List.take len (wr16 (wr16 (wr8 (routed_packet L interface buf) IP_TTL
        (rd8 (routed_packet L interface buf) IP_TTL - 1)) IP_CHECK 0) IP_CHECK
        (htons (checksum (rdN (wr16 (wr8 (routed_packet L interface buf) IP_TTL
          (rd8 (routed_packet L interface buf) IP_TTL - 1)) IP_CHECK 0)
          IP_VHL IP_LEN)))) ++ List.drop len st.aux_buf) IP_VHL IP_LEN
        = rdN (wr16 (wr16 (wr8 (routed_packet L interface buf) IP_TTL
        (rd8 (routed_packet L interface buf) IP_TTL - 1)) IP_CHECK 0) IP_CHECK
        (htons (checksum (rdN (wr16 (wr8 (routed_packet L interface buf) IP_TTL
          (rd8 (routed_packet L interface buf) IP_TTL - 1)) IP_CHECK 0)
          IP_VHL IP_LEN)))) IP_VHL IP_LEN := by
      unfold rdN
      apply List.map_congr_left
      intro k hk
      rw [List.mem_range] at hk
      exact rd8_take_append _ _ len _ (by simp at hk ⊢; omega) hxlen
    show checksum (rdN (List.take len _ ++ _) IP_VHL IP_LEN) = 0
    rw [hrd]
    exact u4
  · intro hne
    unfold routed_packet
    rw [if_neg hne]

/-- C12, counterexample: the echo request `frame_echo` (valid checksum, TTL 64, a route for
its destination, next hop `10.0.0.2` not in the ARP table) is queued and an ARP request goes
out, but the bytes copied to `aux_buf` are not the packet's with only the TTL and the check
field updated: the ICMP type and both IP addresses differ from those received, because the
echo branch has rewritten the packet before it is routed. -/
theorem queued_echo_is_rewritten :
    checksum (rdN frame_echo IP_VHL IP_LEN) = 0 ∧
    1 < rd8 frame_echo IP_TTL ∧
    get_best_route (build_trie example_rtable) (rd32 frame_echo IP_DADDR) = .ok (some route_A) ∧
    get_arp_entry RouterState.initial.arp_table route_A.next_hop = none ∧
    dispatch (build_trie example_rtable) example_links RouterState.initial 0 frame_echo 42
      = .ok { state := { arp_table := [], buf_q := [.aux_buf], len_q := [.aux_len],
                         interface_q := [.aux_interface], aux_buf := frame_echo_queued,
                         aux_len := 42, aux_interface := 0 },
              buf := frame_echo_queued,
              sent := [{ interface := 0, frame := frame_arp_query_A }] } ∧
    frame_echo_queued.getD 34 0 ≠ frame_echo.getD 34 0 ∧
    rd32 frame_echo_queued IP_SADDR ≠ rd32 frame_echo IP_SADDR ∧
    rd32 frame_echo_queued IP_DADDR ≠ rd32 frame_echo IP_DADDR :=
  ⟨by decide, by decide, by rfl, by rfl, by rfl, by decide, by decide, by decide⟩

/-- C12, amended: for every received IPv4 frame of at least 34 bytes with a valid header
checksum that is not an ICMP packet addressed to the receiving interface, with TTL above 1 and
a route returned by `get_best_route` whose next hop is not in the ARP table: (a) each of the
three queues gets exactly one entry at its tail, the address of `aux_buf`, `aux_len` and
`aux_interface`, and after the step that storage holds the packet's bytes below `len` as
received except for the TTL, which is one less, and the check field, with which the 20-byte
header verifies, the length `len` and the route's interface; (b) exactly one frame is sent, on
the route's interface, an ARP request of 42 bytes with broadcast destination, opcode 1, the
interface's own link and IP address as sender and the next hop as target; (c) the packet
itself is not sent and the ARP table is unchanged. Nothing is stated about what the entries
queued earlier name after the step. -/
theorem unresolved_next_hop_enqueued (root : trie_node) (L : Links) (st : RouterState)
    (interface : Nat) (buf : List Nat) (len : Nat) (r : route_table_entry)
    (hlen : 34 ≤ len) (hbuf : len ≤ buf.length)
    (htype : rd16 buf ETH_TYPE = ntohs 2048)
    (hck : checksum (rdN buf IP_VHL IP_LEN) = 0)
    (hecho : ¬ (rd8 buf IP_PROTOCOL = 1 ∧ L.interface_ip interface = rd32 buf IP_DADDR))
    (hroute : get_best_route root (rd32 buf IP_DADDR) = .ok (some r))
    (httl : 1 < rd8 buf IP_TTL)
    (harp : get_arp_entry st.arp_table r.next_hop = none) :
    ∃ st' out s, dispatch root L st interface buf len
        = .ok { state := st', buf := out, sent := [s] } ∧
      st'.arp_table = st.arp_table ∧
      st'.buf_q = st.buf_q ++ [.aux_buf] ∧
      st'.len_q = st.len_q ++ [.aux_len] ∧
      st'.interface_q = st.interface_q ++ [.aux_interface] ∧
      st'.aux_len = len ∧
      st'.aux_interface = r.interface ∧
      (∀ i, i < len → i ≠ 22 → i ≠ 24 → i ≠ 25 → st'.aux_buf.getD i 0 = buf.getD i 0) ∧
      rd8 st'.aux_buf IP_TTL + 1 = rd8 buf IP_TTL ∧
      checksum (rdN st'.aux_buf IP_VHL IP_LEN) = 0 ∧
      s.interface = r.interface ∧
      s.frame.length = 42 ∧
      rdN s.frame ETH_DHOST 6 = [255, 255, 255, 255, 255, 255] ∧
      ntohs (rd16 s.frame ETH_TYPE) = 2054 ∧
      ntohs (rd16 s.frame ARP_OP) = 1 ∧
      rdN s.frame ETH_SHOST 6 = rdN (L.get_interface_mac r.interface) 0 6 ∧
      rdN s.frame ARP_SHA 6 = rdN (L.get_interface_mac r.interface) 0 6 ∧
      rd32 s.frame ARP_SPA = L.interface_ip r.interface % 4294967296 ∧
      rd32 s.frame ARP_TPA = r.next_hop % 4294967296 := by
  have hrp : routed_packet L interface buf = buf := by
    unfold routed_packet
    rw [if_neg hecho]
  have h := unresolved_next_hop_routed root L st interface buf len r hlen hbuf htype hck
    (by rw [hrp]; exact hroute) (by rw [hrp]; exact httl) harp
  rw [hrp] at h
  obtain ⟨st', out, s, hd, a1, a2, a3, a4, a5, a6, a7, a8, a9, -, b⟩ := h
  exact ⟨st', out, s, hd, a1, a2, a3, a4, a5, a6, a7, a8, a9, b⟩

/-- Witness of `unresolved_next_hop_enqueued`: `frame_second` received on interface 0 in the
state where `frame_first` is already queued. -/
theorem unresolved_next_hop_enqueued_witness :
    34 ≤ 44 ∧ 44 ≤ frame_second.length ∧
    rd16 frame_second ETH_TYPE = ntohs 2048 ∧
    checksum (rdN frame_second IP_VHL IP_LEN) = 0 ∧
    ¬ (rd8 frame_second IP_PROTOCOL = 1 ∧
        example_links.interface_ip 0 = rd32 frame_second IP_DADDR) ∧
    get_best_route (build_trie example_rtable) (rd32 frame_second IP_DADDR)
      = .ok (some route_B) ∧
    1 < rd8 frame_second IP_TTL ∧
    get_arp_entry state_one_pending.arp_table route_B.next_hop = none ∧
    ∃ st' out s, dispatch (build_trie example_rtable) example_links state_one_pending 0
        frame_second 44 = .ok { state := st', buf := out, sent := [s] } ∧
      st'.arp_table = state_one_pending.arp_table ∧
      st'.buf_q = state_one_pending.buf_q ++ [.aux_buf] ∧
      st'.len_q = state_one_pending.len_q ++ [.aux_len] ∧
      st'.interface_q = state_one_pending.interface_q ++ [.aux_interface] ∧
      st'.aux_len = 44 ∧
      st'.aux_interface = route_B.interface ∧
      (∀ i, i < 44 → i ≠ 22 → i ≠ 24 → i ≠ 25 →
        st'.aux_buf.getD i 0 = frame_second.getD i 0) ∧
      rd8 st'.aux_buf IP_TTL + 1 = rd8 frame_second IP_TTL ∧
      checksum (rdN st'.aux_buf IP_VHL IP_LEN) = 0 ∧
      s.interface = route_B.interface ∧
      s.frame.length = 42 ∧
      rdN s.frame ETH_DHOST 6 = [255, 255, 255, 255, 255, 255] ∧
      ntohs (rd16 s.frame ETH_TYPE) = 2054 ∧
      ntohs (rd16 s.frame ARP_OP) = 1 ∧
      rdN s.frame ETH_SHOST 6 = rdN (example_links.get_interface_mac route_B.interface) 0 6 ∧
      rdN s.frame ARP_SHA 6 = rdN (example_links.get_interface_mac route_B.interface) 0 6 ∧
      rd32 s.frame ARP_SPA = example_links.interface_ip route_B.interface % 4294967296 ∧
      rd32 s.frame ARP_TPA = route_B.next_hop % 4294967296 :=
  ⟨by decide, by decide, by decide, by decide, by decide, by rfl, by decide, by rfl,
    unresolved_next_hop_enqueued (build_trie example_rtable) example_links state_one_pending 0
      frame_second 44 route_B (by decide) (by decide) (by decide) (by decide) (by decide)
      (by rfl) (by decide) (by rfl)⟩

/-- The entries queued earlier are not kept apart: `frame_first` is queued from the initial
state, which gives `state_one_pending`; when `frame_second` is queued next, both entries of
`buf_q` name `aux_buf`, which now holds `frame_second_queued`, 44 bytes, and the bytes of
`frame_first_queued` are in no storage any more. -/
theorem enqueue_overwrites_pending_packet :
    dispatch (build_trie example_rtable) example_links RouterState.initial 0 frame_first 42
      = .ok { state := state_one_pending, buf := frame_first_queued,
              sent := [{ interface := 1, frame := frame_arp_query }] } ∧
    dispatch (build_trie example_rtable) example_links state_one_pending 0 frame_second 44
      = .ok { state := { arp_table := [], buf_q := [.aux_buf, .aux_buf],
                         len_q := [.aux_len, .aux_len],
                         interface_q := [.aux_interface, .aux_interface],
                         aux_buf := frame_second_queued, aux_len := 44, aux_interface := 1 },
              buf := frame_second_queued,
              sent := [{ interface := 1, frame := frame_arp_query }] } ∧
    frame_first_queued ≠ frame_second_queued :=
  ⟨by rfl, by rfl, by decide⟩

/-! ## Insertion into the trie -/

theorem walk_null (p : List Bool) : walk .null p = .null := by
  cases p <;> rfl

theorem or_create_ne_null (t : trie_node) : ∃ c0 c1 r, or_create t = .node c0 c1 r := by
  cases t with
  | null => exact ⟨_, _, _, rfl⟩
  | node c0 c1 r => exact ⟨_, _, _, rfl⟩

theorem or_create_node (c0 c1 : trie_node) (r : Option route_table_entry) :
    or_create (.node c0 c1 r) = .node c0 c1 r := rfl

/-- The loop of `insert_route` started at a pointer `t` that is first replaced by a fresh node
when it is `NULL`: the node at the end of the path stores the route, every node that existed
stays, every node off the end of the path keeps its route, and new nodes lie on the path. -/
theorem insert_loop_spec (r : route_table_entry) (n : Nat) :
    ∀ (i : Nat) (t : trie_node),
      (∃ c0 c1, walk (insert_loop r n i (or_create t)) (loop_bits_from r.pfx i n)
          = .node c0 c1 (some r)) ∧
      (∀ p, walk t p ≠ .null → walk (insert_loop r n i (or_create t)) p ≠ .null) ∧
      (∀ p, walk t p ≠ .null → p ≠ loop_bits_from r.pfx i n →
        stored (walk (insert_loop r n i (or_create t)) p) = stored (walk t p)) ∧
      (∀ p, walk t p = .null → walk (insert_loop r n i (or_create t)) p ≠ .null →
        p <+: loop_bits_from r.pfx i n) := by
  induction n with
  | zero =>
    intro i t
    cases t with
    | null =>
      refine ⟨⟨_, _, rfl⟩, ?_, ?_, ?_⟩
      · intro p hp; exact absurd (walk_null p) hp
      · intro p hp; exact absurd (walk_null p) hp
      · intro p _ hp
        cases p with
        | nil => exact List.prefix_refl _
        | cons b rest =>
          exfalso; apply hp
          cases b <;> simp [or_create, create_node, insert_loop, walk, walk_null]
    | node c0 c1 ro =>
      refine ⟨⟨_, _, rfl⟩, ?_, ?_, ?_⟩
      · intro p hp
        cases p with
        | nil => simp [or_create, insert_loop, walk]
        | cons b rest => simpa [or_create, insert_loop, walk] using hp
      · intro p hp hne
        cases p with
        | nil => exact absurd rfl hne
        | cons b rest => simp [or_create, insert_loop, walk]
      · intro p hp hq
        cases p with
        | nil => simp [walk] at hp
        | cons b rest =>
          exfalso; apply hq
          simpa [or_create, insert_loop, walk] using hp
  | succ n ih =>
    intro i t
    obtain ⟨c0, c1, ro, ht⟩ := or_create_ne_null t
    have hF1 : ∀ b rest, walk t (b :: rest) = walk (.node c0 c1 ro) (b :: rest) := by
      intro b rest
      cases t with
      | null =>
        simp only [or_create, create_node, trie_node.node.injEq] at ht
        obtain ⟨h1, h2, _⟩ := ht
        subst h1 h2
        cases b <;> simp [walk, walk_null]
      | node a b' c => rw [or_create_node] at ht; rw [ht]
    have hF2 : stored t = ro := by
      cases t with
      | null =>
        simp only [or_create, create_node, trie_node.node.injEq] at ht
        exact ht.2.2
      | node a b' c =>
        rw [or_create_node] at ht
        simp only [trie_node.node.injEq] at ht
        exact ht.2.2
    rw [ht]
    by_cases hbit : (r.pfx >>> (i % 32)) &&& 1 = 0
    · obtain ⟨ha, hb, hc, hd⟩ := ih (i + 1) c0
      have hpath : loop_bits_from r.pfx i (n + 1) = false :: loop_bits_from r.pfx (i + 1) n := by
        show decide (_ ≠ 0) :: _ = _
        rw [decide_eq_false (not_not.mpr hbit)]
      have hins : insert_loop r (n + 1) i (.node c0 c1 ro)
          = .node (insert_loop r n (i + 1) (or_create c0)) c1 ro := by
        rw [insert_loop, if_pos hbit]
      rw [hpath, hins]
      refine ⟨?_, ?_, ?_, ?_⟩
      · simpa [walk] using ha
      · intro p hp
        cases p with
        | nil => simp [walk]
        | cons b rest =>
          rw [hF1] at hp
          cases b with
          | false => simp only [walk] at hp ⊢; exact hb rest (by simpa using hp)
          | true => simpa [walk] using hp
      · intro p hp hne
        cases p with
        | nil => simp only [walk]; exact hF2.symm
        | cons b rest =>
          rw [hF1] at hp ⊢
          cases b with
          | false =>
            simp only [walk] at hp ⊢
            exact hc rest (by simpa using hp) (fun h => hne (by rw [h]))
          | true => simp [walk]
      · intro p hp hq
        cases p with
        | nil => exact List.nil_prefix
        | cons b rest =>
          rw [hF1] at hp
          cases b with
          | false =>
            simp only [walk] at hp hq
            have := hd rest (by simpa using hp) (by simpa using hq)
            exact (List.cons_prefix_cons).2 ⟨rfl, this⟩
          | true =>
            exfalso; apply hq
            simpa [walk] using hp
    · obtain ⟨ha, hb, hc, hd⟩ := ih (i + 1) c1
      have hpath : loop_bits_from r.pfx i (n + 1) = true :: loop_bits_from r.pfx (i + 1) n := by
        show decide (_ ≠ 0) :: _ = _
        rw [decide_eq_true hbit]
      have hins : insert_loop r (n + 1) i (.node c0 c1 ro)
          = .node c0 (insert_loop r n (i + 1) (or_create c1)) ro := by
        rw [insert_loop, if_neg hbit]
      rw [hpath, hins]
      refine ⟨?_, ?_, ?_, ?_⟩
      · simpa [walk] using ha
      · intro p hp
        cases p with
        | nil => simp [walk]
        | cons b rest =>
          rw [hF1] at hp
          cases b with
          | true => simp only [walk] at hp ⊢; exact hb rest (by simpa using hp)
          | false => simpa [walk] using hp
      · intro p hp hne
        cases p with
        | nil => simp only [walk]; exact hF2.symm
        | cons b rest =>
          rw [hF1] at hp ⊢
          cases b with
          | true =>
            simp only [walk] at hp ⊢
            exact hc rest (by simpa using hp) (fun h => hne (by rw [h]))
          | false => simp [walk]
      · intro p hp hq
        cases p with
        | nil => exact List.nil_prefix
        | cons b rest =>
          rw [hF1] at hp
          cases b with
          | true =>
            simp only [walk] at hp hq
            have := hd rest (by simpa using hp) (by simpa using hq)
            exact (List.cons_prefix_cons).2 ⟨rfl, this⟩
          | false =>
            exfalso; apply hq
            simpa [walk] using hp

/-- Insertion of any route into any trie, on the path the loop follows: the node at the end of
`followed_path r` exists and stores `r`; every node that existed before still exists, and
keeps its stored route unless it is that end node; a node that did not exist before lies on
that path. -/
theorem insert_route_on_followed_path (root : trie_node) (r : route_table_entry) :
    (∃ c0 c1, walk (insert_route root r) (followed_path r) = .node c0 c1 (some r)) ∧
    (∀ p, walk root p ≠ .null → walk (insert_route root r) p ≠ .null) ∧
    (∀ p, walk root p ≠ .null → p ≠ followed_path r →
      stored (walk (insert_route root r) p) = stored (walk root p)) ∧
    (∀ p, walk root p = .null → walk (insert_route root r) p ≠ .null →
      p <+: followed_path r) :=
  insert_loop_spec r (get_mask_length r.mask + 1) 0 root

/-- Below loop index 32 the child index computed by the loop is the bit of the prefix. -/
theorem loop_bits_from_eq_bits_from (x : Nat) (n : Nat) :
    ∀ i, i + n ≤ 32 → loop_bits_from x i n = bits_from x i n := by
  induction n with
  | zero => intro i _; rfl
  | succ n ih =>
    intro i hi
    show decide (_ ≠ 0) :: _ = decide (_ ≠ 0) :: _
    rw [Nat.mod_eq_of_lt (by omega), ih (i + 1) (by omega)]

/-- For a mask length of at most 31 the loop follows the path the spec names. -/
theorem followed_path_eq_insert_path (r : route_table_entry)
    (h : get_mask_length r.mask ≤ 31) : followed_path r = insert_path r :=
  loop_bits_from_eq_bits_from r.pfx _ 0 (by omega)

/-- For every trie and every route `r` whose mask length `L = get_mask_length(r.mask)` is at
most 31, so that every shift of the loop is defined: after `insert_route(r)` the node reached
from the root along bits `0, 1, ..., L` of `r.prefix` exists and stores `r`; every node that
existed before still exists, and keeps its stored route unless it is that end node; and a node
that did not exist before lies on that path. -/
theorem insert_route_postcondition_below_32 (root : trie_node) (r : route_table_entry)
    (hL : get_mask_length r.mask ≤ 31) :
    (∃ c0 c1, walk (insert_route root r) (insert_path r) = .node c0 c1 (some r)) ∧
    (∀ p, walk root p ≠ .null → walk (insert_route root r) p ≠ .null) ∧
    (∀ p, walk root p ≠ .null → p ≠ insert_path r →
      stored (walk (insert_route root r) p) = stored (walk root p)) ∧
    (∀ p, walk root p = .null → walk (insert_route root r) p ≠ .null →
      p <+: insert_path r) := by
  rw [← followed_path_eq_insert_path r hL]
  exact insert_route_on_followed_path root r

/-- Route B, of mask length 24, inserted into the trie that holds route A. -/
theorem insert_route_postcondition_below_32_witness :
    get_mask_length route_B.mask ≤ 31 ∧
    (∃ c0 c1, walk (insert_route (build_trie [route_A]) route_B) (insert_path route_B)
      = .node c0 c1 (some route_B)) ∧
    (∀ p, walk (build_trie [route_A]) p ≠ .null →
      walk (insert_route (build_trie [route_A]) route_B) p ≠ .null) ∧
    (∀ p, walk (build_trie [route_A]) p ≠ .null → p ≠ insert_path route_B →
      stored (walk (insert_route (build_trie [route_A]) route_B) p)
        = stored (walk (build_trie [route_A]) p)) ∧
    (∀ p, walk (build_trie [route_A]) p = .null →
      walk (insert_route (build_trie [route_A]) route_B) p ≠ .null →
      p <+: insert_path route_B) :=
  ⟨by decide, insert_route_postcondition_below_32 (build_trie [route_A]) route_B (by decide)⟩

/-- C13: the host route `11.0.1.5/32` inserted into the empty trie. Its mask length is 32, so
the loop runs for the indices 0..32 and at index 32 shifts the 32-bit prefix by 32. The path
of the claim, bits 0..32 of the prefix, ends with bit 32, which is 0; the loop follows bit 0
of the prefix there, which is 1. The node the claim names does not exist after the insertion,
and the route is stored on its sibling. -/
theorem host_route_stored_off_claimed_path :
    get_mask_length route_K.mask = 32 ∧
    insert_path route_K
      = [true, true, false, true, false, false, false, false,
         false, false, false, false, false, false, false, false,
         true, false, false, false, false, false, false, false,
         true, false, true, false, false, false, false, false, false] ∧
    followed_path route_K
      = [true, true, false, true, false, false, false, false,
         false, false, false, false, false, false, false, false,
         true, false, false, false, false, false, false, false,
         true, false, true, false, false, false, false, false, true] ∧
    walk (insert_route .null route_K) (insert_path route_K) = .null ∧
    walk (insert_route .null route_K) (followed_path route_K)
      = .node .null .null (some route_K) :=
  ⟨by decide, by decide, by decide, by rfl, by rfl⟩

/-! ## Lookup against the reference -/

theorem shallowest_max_cons_cons (x y : route_table_entry) (rest : List route_table_entry) :
    shallowest_max (x :: y :: rest)
      = shallowest_max ((if ntohl y.mask > ntohl x.mask then y else x) :: rest) := by
  simp only [shallowest_max]
  cases h : shallowest_max rest with
  | none =>
    simp only
    split_ifs <;> rfl
  | some b =>
    simp only
    by_cases h1 : ntohl y.mask < ntohl b.mask <;> by_cases h2 : ntohl y.mask > ntohl x.mask
    · rw [if_pos h1, if_pos h2, if_pos h1]
      simp only
      rw [if_pos (by omega)]
    · rw [if_pos h1, if_neg h2]
    · rw [if_neg h1, if_pos h2, if_neg h1]
      simp only
      rw [if_pos (by omega)]
    · rw [if_neg h1, if_neg h2]
      simp only
      rw [if_neg (by omega), if_neg (by omega)]

theorem shallowest_max_better (res stored : Option route_table_entry)
    (rest : List route_table_entry) :
    shallowest_max ((better res stored).toList ++ rest)
      = shallowest_max (res.toList ++ (stored.toList ++ rest)) := by
  cases stored with
  | none => rfl
  | some r =>
    cases res with
    | none => rfl
    | some best =>
      simp only [better, Option.toList, List.singleton_append, List.cons_append, List.nil_append]
      rw [shallowest_max_cons_cons]
      split_ifs <;> rfl

theorem shallowest_max_toList (res : Option route_table_entry) :
    shallowest_max res.toList = res := by
  cases res <;> rfl

/-- The loop of `get_best_route` returns, and what it returns is the first maximal route among
the result so far followed by the routes on the nodes still to be visited. -/
theorem get_best_route_loop_eq (a : Nat) (n : Nat) :
    ∀ (i : Nat) (c0 c1 : trie_node) (r res : Option route_table_entry),
      get_best_route_loop a n i (.node c0 c1 r) res
        = .ok (shallowest_max (res.toList ++ visited_routes a n i (.node c0 c1 r))) := by
  induction n with
  | zero =>
    intro i c0 c1 r res
    simp [get_best_route_loop, visited_routes, shallowest_max_toList]
  | succ n ih =>
    intro i c0 c1 r res
    rw [get_best_route_loop, visited_routes]
    generalize (if (a >>> i) &&& 1 = 0 then c0 else c1) = child
    cases child with
    | null =>
      have hb := shallowest_max_better res r []
      rw [List.append_nil, List.append_nil, shallowest_max_toList] at hb
      cases n <;> simp [visited_routes, hb]
    | node d0 d1 s =>
      simp only
      rw [ih, shallowest_max_better]

/-- C14: for every non-empty trie and every address `a`, `get_best_route(a)` returns, and
its result is that of the reference lookup: among the routes stored on the nodes at depths
0..31 along the bits of `a`, up to the first missing child, the one with the largest
host-order mask, the shallowest on ties, or nothing when no visited node stores a route. -/
theorem get_best_route_refines_reference (root : trie_node) (a : Nat) (h : root ≠ .null) :
    get_best_route root a = .ok (reference_lookup root a) := by
  cases root with
  | null => exact absurd rfl h
  | node c0 c1 r =>
    unfold get_best_route reference_lookup
    rw [get_best_route_loop_eq]
    rfl

/-- What `shallowest_max` picks: an element of the list, strictly above everything before it
and at least as large as everything after it. -/
theorem shallowest_max_spec (l : List route_table_entry) :
    (shallowest_max l = none ↔ l = []) ∧
    ∀ r, shallowest_max l = some r →
      ∃ before after, l = before ++ r :: after ∧
        (∀ x ∈ before, ntohl x.mask < ntohl r.mask) ∧
        (∀ x ∈ after, ntohl x.mask ≤ ntohl r.mask) := by
  induction l with
  | nil => exact ⟨⟨fun _ => rfl, fun _ => rfl⟩, fun r h => by simp [shallowest_max] at h⟩
  | cons x rest ih =>
    obtain ⟨ih1, ih2⟩ := ih
    refine ⟨⟨fun h => ?_, fun h => by simp at h⟩, fun r h => ?_⟩
    · simp only [shallowest_max] at h
      cases hm : shallowest_max rest with
      | none => simp [hm] at h
      | some b => simp only [hm] at h; split_ifs at h
    · simp only [shallowest_max] at h
      cases hm : shallowest_max rest with
      | none =>
        simp only [hm, Option.some.injEq] at h
        subst h
        have : rest = [] := ih1.1 hm
        subst this
        exact ⟨[], [], rfl, by simp, by simp⟩
      | some b =>
        simp only [hm] at h
        obtain ⟨before, after, hl, hb, ha⟩ := ih2 b hm
        split_ifs at h with hlt
        · simp only [Option.some.injEq] at h
          subst h
          refine ⟨x :: before, after, by rw [hl]; rfl, ?_, ha⟩
          intro y hy
          rcases List.mem_cons.1 hy with rfl | hy
          · exact hlt
          · exact hb y hy
        · simp only [Option.some.injEq] at h
          subst h
          refine ⟨[], rest, rfl, by simp, ?_⟩
          intro y hy
          rw [hl] at hy
          rcases List.mem_append.1 hy with hy | hy
          · exact Nat.le_of_lt (Nat.lt_of_lt_of_le (hb y hy) (Nat.le_of_not_lt hlt))
          · rcases List.mem_cons.1 hy with rfl | hy
            · exact Nat.le_of_not_lt hlt
            · exact Nat.le_trans (ha y hy) (Nat.le_of_not_lt hlt)

/-- Witness of `get_best_route_refines_reference`: the example trie and `10.0.1.5`. -/
theorem get_best_route_refines_reference_witness :
    build_trie example_rtable ≠ .null ∧
    get_best_route (build_trie example_rtable) (ipv4 10 0 1 5)
      = .ok (reference_lookup (build_trie example_rtable) (ipv4 10 0 1 5)) :=
  ⟨by decide,
    get_best_route_refines_reference (build_trie example_rtable) (ipv4 10 0 1 5) (by decide)⟩

/-! ## Mask lengths -/

/-- For every length `L` from 0 to 32, `get_mask_length` of the stored mask of that length is
`L` rounded down to a whole number of bytes. -/
theorem get_mask_length_stored_mask (L : Nat) (h : L ≤ 32) :
    get_mask_length (stored_mask L) = 8 * (L / 8) := by
  interval_cases L <;> rfl

/-- C15: the mask of length 9, `255.128.0.0`, is stored as the number `0x000080ff`, and
`get_mask_length` of it is 8, not 9; likewise lengths 1 and 31 give 0 and 24. On the lengths
8, 16, 24 and 32 the result is the length. -/
theorem get_mask_length_slash9 :
    stored_mask 9 = ipv4 255 128 0 0 ∧
    ntohl (stored_mask 9) = 0xFF800000 ∧
    get_mask_length (stored_mask 9) = 8 ∧
    get_mask_length (stored_mask 1) = 0 ∧
    get_mask_length (stored_mask 31) = 24 ∧
    get_mask_length (stored_mask 8) = 8 ∧
    get_mask_length (stored_mask 16) = 16 ∧
    get_mask_length (stored_mask 24) = 24 ∧
    get_mask_length (stored_mask 32) = 32 :=
  ⟨by decide, by decide, by decide, by decide, by decide, by decide, by decide, by decide,
    by decide⟩

/-! ## The echo reply -/

theorem checksum_le (data : List Nat) : checksum data ≤ 65535 := by
  unfold checksum; omega

/-- The echo rewrite of `main` on a buffer of at least 42 bytes: type and code 0, the ICMP
check field holds the checksum of the 8-byte ICMP header taken with a zero check field, the
two IP addresses are exchanged, and every other byte is kept. -/
theorem echo_reply_fields (buf : List Nat) (hb : 42 ≤ buf.length) :
    rd8 (echo_reply buf) ICMP_TYPE = 0 ∧
    rd8 (echo_reply buf) ICMP_CODE = 0 ∧
    rd16 (echo_reply buf) ICMP_CHECKSUM
      = checksum [0, 0, 0, 0, rd8 buf 38, rd8 buf 39, rd8 buf 40, rd8 buf 41] ∧
    rd32 (echo_reply buf) IP_SADDR = rd32 buf IP_DADDR ∧
    rd32 (echo_reply buf) IP_DADDR = rd32 buf IP_SADDR ∧
    (∀ i, i < 26 ∨ 38 ≤ i → (echo_reply buf).getD i 0 = buf.getD i 0) := by
  have hk : ∀ k, k < 42 → (k < buf.length) = True := by
    intro k hk; simp; omega
  have h8 : ∀ (b : List Nat) (o : Nat),
      rdN b o 8 = [rd8 b o, rd8 b (o + 1), rd8 b (o + 2), rd8 b (o + 3), rd8 b (o + 4),
        rd8 b (o + 5), rd8 b (o + 6), rd8 b (o + 7)] := fun _ _ => rfl
  have hc := checksum_le [0, 0, 0, 0, rd8 buf 38, rd8 buf 39, rd8 buf 40, rd8 buf 41]
  refine ⟨?_, ?_, ?_, ?_, ?_, ?_⟩
  · simp [echo_reply, wr8, wr16, wr32, rd8_store, hk]
  · simp [echo_reply, wr8, wr16, wr32, rd8_store, hk]
  · simp [echo_reply, wr8, wr16, wr32, rd16, rd8_store, hk, h8, rd8_mod]
    omega
  · simp [echo_reply, wr8, wr16, wr32, rd32, rd8_store, hk, rd8_mod]
    simp only [rd8]
    omega
  · simp [echo_reply, wr8, wr16, wr32, rd32, rd8_store, hk, rd8_mod]
    simp only [rd8]
    omega
  · intro i hi
    simp only [echo_reply, wr8, wr16, wr32, getD_store]
    rw [if_neg (by simp; omega), if_neg (by simp; omega), if_neg (by simp; omega),
      if_neg (by simp; omega), if_neg (by simp; omega), if_neg (by simp; omega)]

/-- The frame sent by the direct-forward path for a packet `x` of at least `len ≥ 12` bytes:
`len` bytes, the two link addresses written, every later byte as in `x`. -/
theorem forwarded_frame (x mac1 mac2 : List Nat) (len : Nat) (h12 : 12 ≤ len)
    (hx : len ≤ x.length) :
    ((store (store x ETH_DHOST (rdN mac1 0 6)) ETH_SHOST (rdN mac2 0 6)).take len).length
      = len ∧
    (∀ i, 12 ≤ i → i < len →
      ((store (store x ETH_DHOST (rdN mac1 0 6)) ETH_SHOST (rdN mac2 0 6)).take len).getD i 0
        = x.getD i 0) ∧
    rdN ((store (store x ETH_DHOST (rdN mac1 0 6)) ETH_SHOST (rdN mac2 0 6)).take len)
      ETH_DHOST 6 = rdN mac1 0 6 ∧
    rdN ((store (store x ETH_DHOST (rdN mac1 0 6)) ETH_SHOST (rdN mac2 0 6)).take len)
      ETH_SHOST 6 = rdN mac2 0 6 := by
  have hb : ∀ k, k < 12 → (k < x.length) = True := by
    intro k hk; simp; omega
  have hl : ∀ k, k < 12 → (k < len) = True := by
    intro k hk; simp; omega
  refine ⟨?_, ?_, ?_, ?_⟩
  · simp [hx]
  · intro i hi hlt
    simp only [getD_take, if_pos hlt, getD_store]
    rw [if_neg (by simp; omega), if_neg (by simp; omega)]
  · simp [rdN_six, rd8_take, rd8_store, hb, hl, rd8_mod, rd8_cons_zero, rd8_cons_succ]
  · simp [rdN_six, rd8_take, rd8_store, hb, hl, rd8_mod, rd8_cons_zero, rd8_cons_succ]

theorem rd8_congr (a b : List Nat) (i : Nat) (h : a.getD i 0 = b.getD i 0) :
    rd8 a i = rd8 b i := by
  unfold rd8; rw [h]

theorem rd16_congr (a b : List Nat) (o : Nat)
    (h : ∀ k, k < 2 → a.getD (o + k) 0 = b.getD (o + k) 0) : rd16 a o = rd16 b o := by
  unfold rd16
  rw [rd8_congr a b o (h 0 (by omega)), rd8_congr a b (o + 1) (h 1 (by omega))]

theorem rd32_congr (a b : List Nat) (o : Nat)
    (h : ∀ k, k < 4 → a.getD (o + k) 0 = b.getD (o + k) 0) : rd32 a o = rd32 b o := by
  unfold rd32
  rw [rd8_congr a b o (h 0 (by omega)), rd8_congr a b (o + 1) (h 1 (by omega)),
    rd8_congr a b (o + 2) (h 2 (by omega)), rd8_congr a b (o + 3) (h 3 (by omega))]

theorem rdN_congr (a b : List Nat) (o n : Nat)
    (h : ∀ k, k < n → a.getD (o + k) 0 = b.getD (o + k) 0) : rdN a o n = rdN b o n := by
  unfold rdN
  apply List.map_congr_left
  intro k hk
  rw [List.mem_range] at hk
  exact rd8_congr a b _ (h k hk)

/-- C16: for every received IPv4 frame (at least 42 bytes) with a valid header checksum,
protocol 1 and destination equal to the receiving interface's address, whose TTL is above 1,
when `get_best_route` on the original sender returns a route and its next hop is in the ARP
table: the state is unchanged and exactly one frame of the same length is sent on that
route's interface; it carries ICMP type 0 and code 0, an ICMP check field holding the checksum
of the 8-byte ICMP header taken with a zero check field, the two IP addresses exchanged, a
TTL one less and an IP header that verifies; the ICMP payload and the other IP header fields
are as received. -/
theorem echo_request_routed_back (root : trie_node) (L : Links) (st : RouterState)
    (interface : Nat) (buf : List Nat) (len : Nat) (r : route_table_entry) (e : arp_table_entry)
    (hlen : 42 ≤ len) (hbuf : len ≤ buf.length)
    (htype : rd16 buf ETH_TYPE = ntohs 2048)
    (hck : checksum (rdN buf IP_VHL IP_LEN) = 0)
    (hproto : rd8 buf IP_PROTOCOL = 1)
    (hdst : L.interface_ip interface = rd32 buf IP_DADDR)
    (hroute : get_best_route root (rd32 buf IP_SADDR) = .ok (some r))
    (httl : 1 < rd8 buf IP_TTL)
    (harp : get_arp_entry st.arp_table r.next_hop = some e) :
    ∃ out s, dispatch root L st interface buf len = .ok { state := st, buf := out, sent := [s] } ∧
      s.interface = r.interface ∧
      s.frame.length = len ∧
      rd8 s.frame ICMP_TYPE = 0 ∧
      rd8 s.frame ICMP_CODE = 0 ∧
      rd16 s.frame ICMP_CHECKSUM
        = checksum [0, 0, 0, 0, rd8 buf 38, rd8 buf 39, rd8 buf 40, rd8 buf 41] ∧
      rd32 s.frame IP_SADDR = rd32 buf IP_DADDR ∧
      rd32 s.frame IP_DADDR = rd32 buf IP_SADDR ∧
      rd8 s.frame IP_TTL + 1 = rd8 buf IP_TTL ∧
      checksum (rdN s.frame IP_VHL IP_LEN) = 0 ∧
      (∀ i, 12 ≤ i → i < len → i < 22 ∨ i = 23 ∨ 38 ≤ i → s.frame.getD i 0 = buf.getD i 0) ∧
      rdN s.frame ETH_DHOST 6 = rdN e.mac 0 6 ∧
      rdN s.frame ETH_SHOST 6 = rdN (L.get_interface_mac r.interface) 0 6 := by
  have hp : routed_packet L interface buf = echo_reply buf := by
    unfold routed_packet; rw [if_pos ⟨hproto, hdst⟩]
  obtain ⟨e1, e2, e3, e4, e5, e6⟩ := echo_reply_fields buf (by omega)
  have hroute' : get_best_route root (rd32 (routed_packet L interface buf) IP_DADDR)
      = .ok (some r) := by rw [hp, e5]; exact hroute
  have httl0 : rd8 (echo_reply buf) IP_TTL = rd8 buf IP_TTL :=
    rd8_congr _ _ _ (e6 _ (Or.inl (by simp)))
  have httl' : 1 < rd8 (routed_packet L interface buf) IP_TTL := by
    rw [hp, httl0]; exact httl
  have hd := handle_ipv4_routed root L st interface buf len r htype hck hroute' httl'
  rw [harp, hp] at hd
  simp only at hd
  rw [hp] at httl'
  have hplen : 34 ≤ (echo_reply buf).length := by rw [length_echo_reply]; omega
  obtain ⟨u1, u2, u3, u4⟩ := ttl_checksum_update (echo_reply buf) hplen httl'
  generalize (wr16 (wr16 (wr8 (echo_reply buf) IP_TTL
      (rd8 (echo_reply buf) IP_TTL - 1)) IP_CHECK 0) IP_CHECK
      (htons (checksum (rdN (wr16 (wr8 (echo_reply buf) IP_TTL
        (rd8 (echo_reply buf) IP_TTL - 1)) IP_CHECK 0) IP_VHL IP_LEN)))) = x at hd u1 u2 u3 u4
  have hxlen : len ≤ x.length := by rw [u1, length_echo_reply]; exact hbuf
  obtain ⟨f1, f2, f3, f4⟩ := forwarded_frame x e.mac (L.get_interface_mac r.interface) len
    (by omega) hxlen
  generalize List.take len (store (store x ETH_DHOST (rdN e.mac 0 6)) ETH_SHOST
      (rdN (L.get_interface_mac r.interface) 0 6)) = f at hd f1 f2 f3 f4
  simp only [ICMP_TYPE, ICMP_CODE, ICMP_CHECKSUM, IP_SADDR, IP_DADDR, IP_TTL, IP_VHL, IP_LEN]
    at e1 e2 e3 e4 e5 httl0 u3 u4 ⊢
  have key : ∀ i, 12 ≤ i → i < len → i ≠ 22 → i ≠ 24 → i ≠ 25 →
      f.getD i 0 = (echo_reply buf).getD i 0 := by
    intro i h12 hl h22 h24 h25
    rw [f2 i h12 hl, u2 i h22 h24 h25]
  refine ⟨_, _, hd, rfl, f1, ?_, ?_, ?_, ?_, ?_, ?_, ?_, ?_, f3, f4⟩
  · rw [← e1]
    exact rd8_congr _ _ _ (key _ (by omega) (by omega) (by omega) (by omega) (by omega))
  · rw [← e2]
    exact rd8_congr _ _ _ (key _ (by omega) (by omega) (by omega) (by omega) (by omega))
  · rw [← e3]
    apply rd16_congr
    intro k hk
    exact key _ (by omega) (by omega) (by omega) (by omega) (by omega)
  · rw [← e4]
    apply rd32_congr
    intro k hk
    exact key _ (by omega) (by omega) (by omega) (by omega) (by omega)
  · rw [← e5]
    apply rd32_congr
    intro k hk
    exact key _ (by omega) (by omega) (by omega) (by omega) (by omega)
  · rw [← httl0, ← u3]
    congr 1
    exact rd8_congr _ _ _ (f2 _ (by omega) (by omega))
  · rw [← u4]
    congr 1
    apply rdN_congr
    intro k hk
    exact f2 _ (by omega) (by omega)
  · intro i h12 hl hi
    rw [key i h12 hl (by omega) (by omega) (by omega)]
    exact e6 i (by omega)

/-- Witness of `echo_request_routed_back`: the echo request `frame_echo` received on
interface 0 with both neighbours resolved. -/
theorem echo_request_routed_back_witness :
    42 ≤ 42 ∧ 42 ≤ frame_echo.length ∧
    rd16 frame_echo ETH_TYPE = ntohs 2048 ∧
    checksum (rdN frame_echo IP_VHL IP_LEN) = 0 ∧
    rd8 frame_echo IP_PROTOCOL = 1 ∧
    example_links.interface_ip 0 = rd32 frame_echo IP_DADDR ∧
    get_best_route (build_trie example_rtable) (rd32 frame_echo IP_SADDR)
      = .ok (some route_A) ∧
    1 < rd8 frame_echo IP_TTL ∧
    get_arp_entry state_resolved.arp_table route_A.next_hop
      = some { ip := ipv4 10 0 0 2, mac := [2, 0, 0, 0, 0, 170] } ∧
    ∃ out s, dispatch (build_trie example_rtable) example_links state_resolved 0 frame_echo 42
        = .ok { state := state_resolved, buf := out, sent := [s] } ∧
      s.interface = route_A.interface ∧
      s.frame.length = 42 ∧
      rd8 s.frame ICMP_TYPE = 0 ∧
      rd8 s.frame ICMP_CODE = 0 ∧
      rd16 s.frame ICMP_CHECKSUM
        = checksum [0, 0, 0, 0, rd8 frame_echo 38, rd8 frame_echo 39, rd8 frame_echo 40,
            rd8 frame_echo 41] ∧
      rd32 s.frame IP_SADDR = rd32 frame_echo IP_DADDR ∧
      rd32 s.frame IP_DADDR = rd32 frame_echo IP_SADDR ∧
      rd8 s.frame IP_TTL + 1 = rd8 frame_echo IP_TTL ∧
      checksum (rdN s.frame IP_VHL IP_LEN) = 0 ∧
      (∀ i, 12 ≤ i → i < 42 → i < 22 ∨ i = 23 ∨ 38 ≤ i →
        s.frame.getD i 0 = frame_echo.getD i 0) ∧
      rdN s.frame ETH_DHOST 6 = rdN [2, 0, 0, 0, 0, 170] 0 6 ∧
      rdN s.frame ETH_SHOST 6 = rdN (example_links.get_interface_mac route_A.interface) 0 6 :=
  ⟨by decide, by decide, by decide, by decide, by decide, by decide, by rfl, by decide, by rfl,
    echo_request_routed_back (build_trie example_rtable) example_links state_resolved 0
      frame_echo 42 route_A { ip := ipv4 10 0 0 2, mac := [2, 0, 0, 0, 0, 170] }
      (by decide) (by decide) (by decide) (by decide) (by decide) (by decide) (by rfl)
      (by decide) (by rfl)⟩

/-! ## Depth of stored routes -/

theorem stored_at_mask_depth_or_create (d : Nat) (t : trie_node)
    (h : stored_at_mask_depth d t) : stored_at_mask_depth d (or_create t) := by
  cases t with
  | null => exact ⟨fun x hx => (by cases hx), trivial, trivial⟩
  | node c0 c1 r => exact h

/-- The loop of `insert_route` keeps every stored route at depth mask length + 1, as long as
it ends at that depth for the new route. -/
theorem insert_loop_stored_at_mask_depth (r : route_table_entry) (n : Nat) :
    ∀ (d i : Nat) (t : trie_node), d + n = get_mask_length r.mask + 1 →
      stored_at_mask_depth d t → stored_at_mask_depth d (insert_loop r n i (or_create t)) := by
  induction n with
  | zero =>
    intro d i t hd ht
    obtain ⟨c0, c1, ro, hc⟩ := or_create_ne_null t
    have h' := stored_at_mask_depth_or_create d t ht
    rw [hc] at h' ⊢
    rw [insert_loop]
    refine ⟨fun x hx => ?_, h'.2.1, h'.2.2⟩
    cases hx
    omega
  | succ n ih =>
    intro d i t hd ht
    obtain ⟨c0, c1, ro, hc⟩ := or_create_ne_null t
    have h' := stored_at_mask_depth_or_create d t ht
    rw [hc] at h' ⊢
    rw [insert_loop]
    split
    · exact ⟨h'.1, ih (d + 1) (i + 1) c0 (by omega) h'.2.1, h'.2.2⟩
    · exact ⟨h'.1, h'.2.1, ih (d + 1) (i + 1) c1 (by omega) h'.2.2⟩

theorem insert_route_stored_at_mask_depth (root : trie_node) (r : route_table_entry)
    (h : stored_at_mask_depth 0 root) : stored_at_mask_depth 0 (insert_route root r) :=
  insert_loop_stored_at_mask_depth r _ 0 0 root (by omega) h

theorem foldl_insert_route_stored_at_mask_depth (rtable : List route_table_entry) :
    ∀ root, stored_at_mask_depth 0 root →
      stored_at_mask_depth 0 (rtable.foldl insert_route root) := by
  induction rtable with
  | nil => intro root h; exact h
  | cons r rest ih =>
    intro root h
    exact ih _ (insert_route_stored_at_mask_depth root r h)

theorem build_trie_stored_at_mask_depth (rtable : List route_table_entry) :
    stored_at_mask_depth 0 (build_trie rtable) :=
  foldl_insert_route_stored_at_mask_depth rtable .null trivial

/-- A route on a node visited by the lookup, started at depth `d` with `n` nodes left to
visit, has mask length + 1 below `d + n`. -/
theorem visited_routes_mask_length (a : Nat) (n : Nat) :
    ∀ (d i : Nat) (t : trie_node), stored_at_mask_depth d t →
      ∀ x ∈ visited_routes a n i t, get_mask_length x.mask + 1 < d + n := by
  induction n with
  | zero => intro d i t _ x hx; simp [visited_routes] at hx
  | succ n ih =>
    intro d i t ht x hx
    cases t with
    | null => simp [visited_routes] at hx
    | node c0 c1 r =>
      rw [visited_routes] at hx
      rcases List.mem_append.1 hx with hx | hx
      · have := ht.1 x (by simpa using hx)
        omega
      · have hchild : stored_at_mask_depth (d + 1)
            (if (a >>> i) &&& 1 = 0 then c0 else c1) := by
          split
          · exact ht.2.1
          · exact ht.2.2
        have := ih (d + 1) (i + 1) _ hchild x hx
        omega

theorem shallowest_max_mem (l : List route_table_entry) (r : route_table_entry)
    (h : shallowest_max l = some r) : r ∈ l := by
  obtain ⟨before, after, hl, -, -⟩ := (shallowest_max_spec l).2 r h
  rw [hl]
  simp

/-- C17: for every trie built by `insert_route` calls from the empty trie and every address,
a route returned by `get_best_route` has `get_mask_length(mask)` at most 30, so never 31 or
32: insertion stores a route at depth mask length + 1 and the lookup inspects depths 0..31
only. -/
theorem get_best_route_never_returns_long_masks (rtable : List route_table_entry) (a : Nat)
    (r : route_table_entry) (h : get_best_route (build_trie rtable) a = .ok (some r)) :
    get_mask_length r.mask ≠ 31 ∧ get_mask_length r.mask ≠ 32 ∧
      get_mask_length r.mask + 1 ≤ 31 := by
  have hinv := build_trie_stored_at_mask_depth rtable
  cases hb : build_trie rtable with
  | null => rw [hb] at h; cases h
  | node c0 c1 ro =>
    rw [hb] at h hinv
    unfold get_best_route at h
    rw [get_best_route_loop_eq] at h
    have hmem := shallowest_max_mem _ r (by simpa using h)
    have := visited_routes_mask_length a 32 0 0 _ hinv r (by simpa using hmem)
    omega

/-- Witness of `get_best_route_never_returns_long_masks`: the example trie returns route A
for `10.0.1.5`. -/
theorem get_best_route_never_returns_long_masks_witness :
    get_best_route (build_trie example_rtable) (ipv4 10 0 1 5) = .ok (some route_A) ∧
    (get_mask_length route_A.mask ≠ 31 ∧ get_mask_length route_A.mask ≠ 32 ∧
      get_mask_length route_A.mask + 1 ≤ 31) :=
  ⟨by rfl,
    get_best_route_never_returns_long_masks example_rtable (ipv4 10 0 1 5) route_A (by rfl)⟩

/-- A host route is never returned, not even for its own address. -/
theorem host_route_never_returned :
    get_mask_length route_H.mask = 32 ∧
    get_best_route (build_trie [route_H]) (ipv4 10 0 1 5) = .ok none ∧
    get_best_route (build_trie [route_A, route_H]) (ipv4 10 0 1 5) = .ok (some route_A) :=
  ⟨by decide, by rfl, by rfl⟩

/-! ## Table capacity and link source -/

/-- C18: from the initial state, ARP replies from 21 different neighbours, each addressed to
the receiving interface, are processed without any test on the table size: afterwards the
table holds 21 entries, one more than the 20 allocated, the last one written at index 20. -/
theorem arp_table_grows_past_capacity :
    ∃ st sent, receive_loop (build_trie example_rtable) example_links RouterState.initial
        (replies_from_neighbours 21) = .ok (st, sent) ∧
      st.arp_table.length = 21 ∧
      ¬ st.arp_table.length ≤ 20 ∧
      st.arp_table.getD 20 { ip := 0, mac := [] }
        = { ip := ipv4 10 0 1 120, mac := [2, 0, 0, 0, 1, 20] } :=
  ⟨{ RouterState.initial with
      arp_table := (List.range 21).map
        (fun k => { ip := ipv4 10 0 1 (100 + k), mac := [2, 0, 0, 0, 1, k] }) },
    [], by rfl, by decide, by decide, by decide⟩

/-- C19: `frame_first` is received while its next hop `10.0.1.2` is unresolved and is queued;
the ARP reply then replays it on interface 1 with the link source of the received frame, the
sender's `02:00:00:00:00:aa`, not the address of interface 1. The same packet forwarded
directly, with the next hop resolved, does carry the address of interface 1. -/
theorem replayed_frame_keeps_received_source :
    receive_loop (build_trie example_rtable) example_links RouterState.initial
      [{ interface := 0, buf := frame_first, len := 42 },
       { interface := 1, buf := frame_arp_reply, len := 42 }]
      = .ok ({ arp_table := [{ ip := ipv4 10 0 1 2, mac := [2, 0, 0, 0, 0, 187] }],
               buf_q := [], len_q := [], interface_q := [],
               aux_buf := frame_first_replayed, aux_len := 42, aux_interface := 1 },
             [{ interface := 1, frame := frame_arp_query },
              { interface := 1, frame := frame_first_replayed }]) ∧
    rdN frame_first_replayed ETH_SHOST 6 = rdN frame_first ETH_SHOST 6 ∧
    rdN frame_first_replayed ETH_SHOST 6 ≠ rdN (example_links.get_interface_mac 1) 0 6 ∧
    receive_loop (build_trie example_rtable) example_links state_resolved
      [{ interface := 0, buf := frame_first, len := 42 }]
      = .ok (state_resolved, [{ interface := 1, frame := frame_first_forwarded }]) ∧
    rdN frame_first_forwarded ETH_SHOST 6 = rdN (example_links.get_interface_mac 1) 0 6 :=
  ⟨by rfl, by decide, by decide, by rfl, by decide⟩

end Router
